import Mathlib

/-!
The ayo-football-backend reporting and authorization core.

A shallow embedding of the pagination helper, the report handlers, the report
use case, the match and goal repositories and the authentication / admin
middleware, followed by the properties established for them.

Conventions of the embedding:
* Go's `int` and `int64` are 64-bit two's-complement integers; they are
  embedded as `Int` and every arithmetic result is passed through `wrap64`.
* A Go function that can panic returns `Option` (`none` is the panic).
* A Go `(value, error)` result whose value is only read when the error is nil
  is embedded as `Except`; where the caller reads the value next to a
  discarded error it is embedded as the pair itself.
-/

namespace AyoFootball

/-! ## Machine integers -/

/-- Wrap-around of a mathematical integer into the 64-bit signed range. -/
def wrap64 (x : Int) : Int := (x + 2 ^ 63) % 2 ^ 64 - 2 ^ 63

/-- The range of Go's `int` / `int64` on the supported platforms. -/
def inInt64 (x : Int) : Prop := -(2 ^ 63) ≤ x ∧ x < 2 ^ 63

instance (x : Int) : Decidable (inInt64 x) := by
  unfold inInt64; exact inferInstance

/-- Go's `a + b` on `int64`. -/
def add64 (a b : Int) : Int := wrap64 (a + b)

/-- Go's `a / b` on `int64` for `b ≠ 0`: truncation towards zero, wrapped. -/
def div64 (a b : Int) : Int := wrap64 (Int.tdiv a b)

/-- Go's `a % b` on `int64` for `b ≠ 0`: sign follows the dividend. -/
def mod64 (a b : Int) : Int := Int.tmod a b

/-! ## pkg/response -/

/-- Pagination metadata (`response.Meta`). -/
structure Meta where
  CurrentPage : Int
  PerPage : Int
  TotalItems : Int
  TotalPages : Int
  deriving DecidableEq, Repr

/-- The function `response.NewMeta`. Integer division by zero panics in Go, which
is the `none` result. -/
def NewMeta (page limit total : Int) : Option Meta :=
  if limit = 0 then none
  else
    let totalPages := div64 total limit
    let totalPages := if mod64 total limit ≠ 0 then add64 totalPages 1 else totalPages
    some { CurrentPage := page, PerPage := limit, TotalItems := total, TotalPages := totalPages }

/-- The Go error values the embedded code distinguishes. `ErrRecordNotFound` is
`gorm.ErrRecordNotFound`; the `Err...` sentinels are the use-case package's;
`other` is any further error, identified by its text; `wrapped` is an error
whose `Unwrap` yields `inner`. -/
inductive Error where
  | ErrRecordNotFound
  | ErrMatchNotFound
  | ErrUserNotFound
  | ErrInvalidCredentials
  | ErrUserAlreadyExists
  | other (text : String)
  | wrapped (text : String) (inner : Error)
  deriving DecidableEq, Repr

/-- Go's `errors.Is(err, target)`: equality somewhere along the unwrap chain. -/
def errorsIs : Error → Error → Bool
  | .wrapped text inner, target =>
      decide (Error.wrapped text inner = target) || errorsIs inner target
  | err, target => decide (err = target)

/-! ## Entities

The entity package's struct declarations other than `BaseEntity` are not part
of the available sources. -/

/-- Identifiers (`uuid.UUID`), kept abstract. -/
abbrev UUID := Nat

/-- Modelled from the spec: the `Team` entity (struct declaration missing);
the columns `id`, `name`, `deleted_at` the queries read, the last one from
`BaseEntity`. -/
structure Team where
  ID : UUID
  Name : String
  DeletedAt : Option Nat
  deriving DecidableEq, Repr

/-- Modelled from the spec: the `Player` entity (struct declaration missing);
the columns `id`, `name`, `team_id`, `deleted_at` the queries read. -/
structure Player where
  ID : UUID
  Name : String
  TeamID : UUID
  DeletedAt : Option Nat
  deriving DecidableEq, Repr

/-- Modelled from the spec: the `Goal` entity (struct declaration missing):
match, player, scoring team, minute, own-goal flag, and the soft-delete marker
of `BaseEntity`. -/
structure Goal where
  ID : UUID
  MatchID : UUID
  PlayerID : UUID
  TeamID : UUID
  Minute : Int
  IsOwnGoal : Bool
  DeletedAt : Option Nat
  deriving DecidableEq, Repr

/-- Modelled from the spec: the `Match` entity (struct declaration missing):
the fields the use case reads (`HomeTeamID`, `AwayTeamID`, the nullable
scores, the preloaded teams and goals), the `status` column and the
soft-delete marker `DeletedAt` of `BaseEntity`, which "provides common fields
for all entities". -/
structure Match where
  ID : UUID
  HomeTeamID : UUID
  AwayTeamID : UUID
  Status : String
  HomeScore : Option Int
  AwayScore : Option Int
  HomeTeam : Option Team
  AwayTeam : Option Team
  Goals : List Goal
  DeletedAt : Option Nat
  deriving DecidableEq, Repr

/-- Modelled from the spec: the constant `entity.MatchStatusCompleted`, the
persisted status value `completed`. -/
def MatchStatusCompleted : String := "completed"

/-- Modelled from the spec: the constant `entity.RoleAdmin` converted with
`string(...)`, the role value `admin`. -/
def RoleAdmin : String := "admin"

/-- The methods `GetResult` and `GetResultDisplay` of `entity.Match`, whose
bodies are not part of the available sources, taken as parameters. -/
structure MatchMethods where
  GetResult : Match → String
  GetResultDisplay : Match → String

/-- One row of the top-scorer ranking (`repository.TopScorerResult`), with the
fields the dto conversion reads. -/
structure TopScorerResult where
  PlayerID : UUID
  PlayerName : String
  TeamID : UUID
  TeamName : String
  GoalCount : Int
  deriving DecidableEq, Repr

/-! ## Repository interfaces, as consumed by the use case -/

/-- The part of `repository.MatchRepository` the report use case calls.
`GetTeamWinCount` keeps Go's `(int64, error)` pair because one caller discards
the error and still reads the count. -/
structure MatchRepository where
  FindByIDWithDetails : UUID → Except Error Match
  GetTeamWinCount : UUID → Bool → Int × Option Error
  GetCompletedMatches : Int → Int → Except Error (List Match × Int)

/-- The part of `repository.GoalRepository` the report use case calls. -/
structure GoalRepository where
  GetTopScorers : Int → Except Error (List TopScorerResult)

/-! ## internal/domain/usecase/report_usecase.go -/

/-- The struct `usecase.MatchReport`. Pointers are `Option`. -/
structure MatchReport where
  Match : Match
  HomeTeam : Option Team
  AwayTeam : Option Team
  HomeScore : Int
  AwayScore : Int
  MatchResult : String
  MatchResultDisplay : String
  Goals : List Goal
  TopScorer : Option TopScorerResult
  HomeTeamTotalWins : Int
  AwayTeamTotalWins : Int
  deriving DecidableEq, Repr

/-- The struct `reportUseCaseImpl` (the team repository is never called by the
embedded methods). -/
structure reportUseCaseImpl where
  matchRepo : MatchRepository
  goalRepo : GoalRepository
  methods : MatchMethods

/-- The pattern `x := 0; if p != nil { x = *p }` used for both scores. -/
def resolveScore (p : Option Int) : Int :=
  match p with
  | some v => v
  | none => 0

/-- The method `reportUseCaseImpl.GetMatchReport`. -/
def reportUseCaseImpl.GetMatchReport (uc : reportUseCaseImpl) (matchID : UUID) :
    Except Error MatchReport :=
  match uc.matchRepo.FindByIDWithDetails matchID with
  | .error err =>
      if errorsIs err Error.ErrRecordNotFound then .error Error.ErrMatchNotFound
      else .error err
  | .ok m =>
    match uc.matchRepo.GetTeamWinCount m.HomeTeamID true with
    | (_, some err) => .error err
    | (homeWins, none) =>
    match uc.matchRepo.GetTeamWinCount m.HomeTeamID false with
    | (_, some err) => .error err
    | (homeAwayWins, none) =>
    match uc.matchRepo.GetTeamWinCount m.AwayTeamID false with
    | (_, some err) => .error err
    | (awayWins, none) =>
    match uc.matchRepo.GetTeamWinCount m.AwayTeamID true with
    | (_, some err) => .error err
    | (awayHomeWins, none) =>
    match uc.goalRepo.GetTopScorers 1 with
    | .error err => .error err
    | .ok topScorers =>
      let topScorer : Option TopScorerResult :=
        if topScorers.length > 0 then topScorers.head? else none
      let homeScore := resolveScore m.HomeScore
      let awayScore := resolveScore m.AwayScore
      .ok {
        Match := m
        HomeTeam := m.HomeTeam
        AwayTeam := m.AwayTeam
        HomeScore := homeScore
        AwayScore := awayScore
        MatchResult := uc.methods.GetResult m
        MatchResultDisplay := uc.methods.GetResultDisplay m
        Goals := m.Goals
        TopScorer := topScorer
        HomeTeamTotalWins := add64 homeWins homeAwayWins
        AwayTeamTotalWins := add64 awayWins awayHomeWins }

/-- The body of the loop of `GetAllMatchReports` for one match: the errors of
the four win-count calls are discarded (`_`), the counts are used as returned;
`TopScorer` is left at its zero value. -/
def reportUseCaseImpl.buildListReport (uc : reportUseCaseImpl) (m : Match) : MatchReport :=
  let homeScore := resolveScore m.HomeScore
  let awayScore := resolveScore m.AwayScore
  let homeWins := (uc.matchRepo.GetTeamWinCount m.HomeTeamID true).1
  let homeAwayWins := (uc.matchRepo.GetTeamWinCount m.HomeTeamID false).1
  let awayWins := (uc.matchRepo.GetTeamWinCount m.AwayTeamID false).1
  let awayHomeWins := (uc.matchRepo.GetTeamWinCount m.AwayTeamID true).1
  { Match := m
    HomeTeam := m.HomeTeam
    AwayTeam := m.AwayTeam
    HomeScore := homeScore
    AwayScore := awayScore
    MatchResult := uc.methods.GetResult m
    MatchResultDisplay := uc.methods.GetResultDisplay m
    Goals := m.Goals
    TopScorer := none
    HomeTeamTotalWins := add64 homeWins homeAwayWins
    AwayTeamTotalWins := add64 awayWins awayHomeWins }

/-- The assignment `reports[0].TopScorer = &topScorers[0]`, guarded as in the
source by `len(topScorers) > 0 && len(reports) > 0`. -/
def attachTopScorer (reports : List MatchReport) (topScorers : List TopScorerResult) :
    List MatchReport :=
  if topScorers.length > 0 ∧ reports.length > 0 then
    match reports with
    | r :: rest => { r with TopScorer := topScorers.head? } :: rest
    | [] => []
  else reports

/-- The method `reportUseCaseImpl.GetAllMatchReports`. -/
def reportUseCaseImpl.GetAllMatchReports (uc : reportUseCaseImpl) (page limit : Int) :
    Except Error (List MatchReport × Int) :=
  match uc.matchRepo.GetCompletedMatches page limit with
  | .error err => .error err
  | .ok (ms, total) =>
    let reports := ms.map uc.buildListReport
    let reports :=
      match uc.goalRepo.GetTopScorers 1 with
      | .ok topScorers => attachTopScorer reports topScorers
      | .error _ => reports
    .ok (reports, total)

/-- The method `reportUseCaseImpl.GetTopScorers`. -/
def reportUseCaseImpl.GetTopScorers (uc : reportUseCaseImpl) (limit : Int) :
    Except Error (List TopScorerResult) :=
  uc.goalRepo.GetTopScorers limit

/-! ## The response envelope and the handlers -/

/-- Modelled from the spec: the `User` entity (struct declaration missing),
with the fields the dto conversion reads: identifier, email, name, role. -/
structure User where
  ID : UUID
  Email : String
  Name : String
  Role : String
  deriving DecidableEq, Repr

/-- What a handler puts in the `Data` field, before the dto conversion (field
copying, part of it outside the available sources). -/
inductive Payload where
  | matchReports (reports : List MatchReport)
  | topScorers (scorers : List TopScorerResult)
  | matchReport (report : MatchReport)
  | user (u : User)
  | auth (token : String) (u : User)
  deriving DecidableEq, Repr

/-- The struct `response.Response`. `Error` is `nil` or the text of an error. -/
structure Response where
  Success : Bool
  Message : String
  Data : Option Payload
  Error : Option String
  Meta : Option Meta
  deriving DecidableEq, Repr

/-- One call `c.JSON(statusCode, body)`. -/
structure Written where
  Status : Int
  Body : Response
  deriving DecidableEq, Repr

def StatusOK : Int := 200
def StatusCreated : Int := 201
def StatusBadRequest : Int := 400
def StatusNotFound : Int := 404
def StatusConflict : Int := 409
def StatusUnauthorized : Int := 401
def StatusForbidden : Int := 403
def StatusInternalServerError : Int := 500

/-- The function `response.Success`, as the value handed to `c.JSON`. -/
def responseSuccess (statusCode : Int) (message : String) (data : Payload) : Written :=
  { Status := statusCode
    Body := { Success := true, Message := message, Data := some data, Error := none, Meta := none } }

/-- The function `response.SuccessWithMeta`, as the value handed to `c.JSON`. -/
def responseSuccessWithMeta (statusCode : Int) (message : String) (data : Payload) (m : Meta) :
    Written :=
  { Status := statusCode
    Body := { Success := true, Message := message, Data := some data, Error := none,
              Meta := some m } }

/-- The function `response.Error`, as the value handed to `c.JSON`. -/
def responseError (statusCode : Int) (message : String) (err : Option String) : Written :=
  { Status := statusCode
    Body := { Success := false, Message := message, Data := none, Error := err, Meta := none } }

/-- The method `err.Error()`. The texts of the four use-case sentinels are
declared outside the available sources; they are rendered by their Go names. -/
def Error.text : Error → String
  | .ErrRecordNotFound => "record not found"
  | .ErrMatchNotFound => "ErrMatchNotFound"
  | .ErrUserNotFound => "ErrUserNotFound"
  | .ErrInvalidCredentials => "ErrInvalidCredentials"
  | .ErrUserAlreadyExists => "ErrUserAlreadyExists"
  | .other text => text
  | .wrapped text _ => text

/-- The interface `usecase.ReportUseCase`. -/
structure ReportUseCase where
  GetMatchReport : UUID → Except Error MatchReport
  GetAllMatchReports : Int → Int → Except Error (List MatchReport × Int)
  GetTopScorers : Int → Except Error (List TopScorerResult)

/-- The implementation `reportUseCaseImpl` seen through the interface. -/
def reportUseCaseImpl.toUseCase (uc : reportUseCaseImpl) : ReportUseCase :=
  { GetMatchReport := uc.GetMatchReport
    GetAllMatchReports := uc.GetAllMatchReports
    GetTopScorers := uc.GetTopScorers }

/-- What one run of a report handler did: the arguments of its use-case call,
the arguments of its `NewMeta` call if it made one, and the response written. -/
structure HandlerRun where
  useCaseArgs : List Int
  metaArgs : Option (Int × Int × Int)
  written : Written
  deriving DecidableEq, Repr

/-- The handler `ReportHandler.GetAllMatchReports`, from the two integers that
`strconv.Atoi` produced for the `page` and `limit` query values (its errors are
discarded). A panic (division by zero in `NewMeta`) is `none`. -/
def ReportHandler.GetAllMatchReports (reportUseCase : ReportUseCase) (page limit : Int) :
    Option HandlerRun :=
  let page := if page < 1 then 1 else page
  let limit := if limit < 1 ∨ limit > 100 then 10 else limit
  match reportUseCase.GetAllMatchReports page limit with
  | .error err =>
      some { useCaseArgs := [page, limit]
             metaArgs := none
             written := responseError StatusInternalServerError "Failed to get match reports"
                          (some err.text) }
  | .ok (reports, total) =>
      match NewMeta page limit total with
      | none => none
      | some m =>
          some { useCaseArgs := [page, limit]
                 metaArgs := some (page, limit, total)
                 written := responseSuccessWithMeta StatusOK
                   "Match reports retrieved successfully" (Payload.matchReports reports) m }

/-- The handler `ReportHandler.GetTopScorers`, from the integer that
`strconv.Atoi` produced for the `limit` query value. -/
def ReportHandler.GetTopScorers (reportUseCase : ReportUseCase) (limit : Int) : HandlerRun :=
  let limit := if limit < 1 ∨ limit > 100 then 10 else limit
  match reportUseCase.GetTopScorers limit with
  | .error err =>
      { useCaseArgs := [limit]
        metaArgs := none
        written := responseError StatusInternalServerError "Failed to get top scorers"
                     (some err.text) }
  | .ok scorers =>
      { useCaseArgs := [limit]
        metaArgs := none
        written := responseSuccess StatusOK "Top scorers retrieved successfully"
                     (Payload.topScorers scorers) }

/-! ## internal/delivery/http/middleware/auth.go -/

def AuthorizationHeader : String := "Authorization"
def BearerPrefix : String := "Bearer "
def UserIDKey : String := "user_id"
def UserEmailKey : String := "user_email"
def UserRoleKey : String := "user_role"

/-- A value boxed in Go's `interface{}`: its dynamic type and its content.
`string` and `userRole` (the named string type of the entity package) are
different dynamic types, so they never compare equal. -/
inductive Value where
  | string (s : String)
  | userRole (s : String)
  | uuid (u : UUID)
  deriving DecidableEq, Repr

/-- The claims of a validated token. The struct is declared in the security
package, outside the available sources; `Role` is kept as the boxed value
that `c.Set` stores, whichever its declared type. -/
structure Claims where
  UserID : UUID
  Email : String
  Role : Value
  deriving DecidableEq, Repr

/-- The interface `security.JWTService`, the method the middleware calls. -/
structure JWTService where
  ValidateToken : String → Except Error Claims

/-- What the middleware did to the world outside the context map. -/
inductive Event where
  | validateToken (tokenString : String)
  | next
  deriving DecidableEq, Repr

/-- The part of `gin.Context` the middleware touches: the request headers, the
key/value map, the responses written with `c.JSON`, the abort flag, and a log
of the calls made to the token service and to `c.Next`. -/
structure Context where
  Headers : List (String × String)
  Keys : List (String × Value)
  Responses : List Written
  Aborted : Bool
  Log : List Event
  deriving DecidableEq, Repr

/-- The method `c.GetHeader`: the header value, or `""` when it is missing. -/
def Context.GetHeader (c : Context) (key : String) : String :=
  match c.Headers.lookup key with
  | some v => v
  | none => ""

/-- The method `c.Set`. -/
def Context.Set (c : Context) (key : String) (v : Value) : Context :=
  { c with Keys := (key, v) :: c.Keys.filter (fun kv => kv.1 ≠ key) }

/-- The method `c.Get`. -/
def Context.Get (c : Context) (key : String) : Option Value :=
  c.Keys.lookup key

/-- The method `c.JSON`. -/
def Context.JSON (c : Context) (w : Written) : Context :=
  { c with Responses := c.Responses ++ [w] }

/-- The method `c.Abort`. -/
def Context.Abort (c : Context) : Context :=
  { c with Aborted := true }

/-- The method `c.Next`: runs the rest of the chain, here `rest`. -/
def Context.Next (c : Context) (rest : Context → Context) : Context :=
  rest { c with Log := c.Log ++ [Event.next] }

/-- Go's `strings.HasPrefix`. -/
def HasPrefix (s pre : String) : Bool :=
  pre.data.isPrefixOf s.data

/-- Go's `strings.TrimPrefix`. -/
def TrimPrefix (s pre : String) : String :=
  if HasPrefix s pre then String.mk (s.data.drop pre.data.length) else s

/-- The handler returned by `AuthMiddleware(jwtService)`; `rest` is the rest of
the handler chain, which `c.Next()` runs. -/
def AuthMiddleware (jwtService : JWTService) (rest : Context → Context) (c : Context) :
    Context :=
  let authHeader := c.GetHeader AuthorizationHeader
  if authHeader = "" then
    (c.JSON (responseError StatusUnauthorized "Authorization header is required" none)).Abort
  else if !HasPrefix authHeader BearerPrefix then
    (c.JSON (responseError StatusUnauthorized "Invalid authorization header format" none)).Abort
  else
    let tokenString := TrimPrefix authHeader BearerPrefix
    let c := { c with Log := c.Log ++ [Event.validateToken tokenString] }
    match jwtService.ValidateToken tokenString with
    | .error _ =>
        (c.JSON (responseError StatusUnauthorized "Invalid or expired token" none)).Abort
    | .ok claims =>
        let c := c.Set UserIDKey (Value.uuid claims.UserID)
        let c := c.Set UserEmailKey (Value.string claims.Email)
        let c := c.Set UserRoleKey claims.Role
        c.Next rest

/-- The handler returned by `AdminMiddleware()`. The comparison
`role != string(entity.RoleAdmin)` is between a boxed value and a `string`. -/
def AdminMiddleware (rest : Context → Context) (c : Context) : Context :=
  match c.Get UserRoleKey with
  | none =>
      (c.JSON (responseError StatusUnauthorized "User role not found" none)).Abort
  | some role =>
      if role ≠ Value.string RoleAdmin then
        (c.JSON (responseError StatusForbidden "Admin access required" none)).Abort
      else
        c.Next rest

/-! ## internal/infrastructure/database: the queries over the stored rows -/

/-- The tables the embedded queries read. Soft-deleted rows stay in their
table with `DeletedAt` set. -/
structure DB where
  Matches : List Match
  Goals : List Goal
  Players : List Player
  Teams : List Team
  deriving DecidableEq, Repr

/-- SQL comparison `a > b` on nullable integers: unknown (`none`) as soon as
one side is NULL. -/
def sqlGt (a b : Option Int) : Option Bool :=
  match a, b with
  | some x, some y => some (decide (x > y))
  | _, _ => none

/-- SQL `a AND b` in three-valued logic. -/
def sqlAnd (a b : Option Bool) : Option Bool :=
  match a, b with
  | some false, _ => some false
  | _, some false => some false
  | some true, some true => some true
  | _, _ => none

/-- A `WHERE` clause keeps a row exactly when its condition is true (neither
false nor unknown). -/
def sqlKeeps (cond : Option Bool) : Bool := cond == some true

/-- The condition gorm appends to every query on a model with a
`gorm.DeletedAt` field: `deleted_at IS NULL`. -/
def notSoftDeleted (deletedAt : Option Nat) : Option Bool := some deletedAt.isNone

/-- The condition of the home branch of `GetTeamWinCount`:
`home_team_id = ? AND status = ? AND home_score > away_score`. -/
def homeWinCond (teamID : UUID) (m : Match) : Option Bool :=
  sqlAnd (sqlAnd (some (decide (m.HomeTeamID = teamID)))
            (some (decide (m.Status = MatchStatusCompleted))))
    (sqlGt m.HomeScore m.AwayScore)

/-- The condition of the away branch of `GetTeamWinCount`:
`away_team_id = ? AND status = ? AND away_score > home_score`. -/
def awayWinCond (teamID : UUID) (m : Match) : Option Bool :=
  sqlAnd (sqlAnd (some (decide (m.AwayTeamID = teamID)))
            (some (decide (m.Status = MatchStatusCompleted))))
    (sqlGt m.AwayScore m.HomeScore)

/-- The method `matchRepositoryImpl.GetTeamWinCount` on a database that
answers: `Model(&entity.Match{}).Where(...).Count(&count)`, i.e. the number of
rows of `matches` that satisfy the branch condition and gorm's soft-delete
condition. -/
def matchRepositoryImpl.GetTeamWinCount (db : DB) (teamID : UUID) (isHome : Bool) :
    Int × Option Error :=
  let cond : Match → Option Bool :=
    if isHome then homeWinCond teamID else awayWinCond teamID
  let rows := db.Matches.filter (fun m => sqlKeeps (sqlAnd (cond m) (notSoftDeleted m.DeletedAt)))
  ((rows.length : Int), none)

/-- One row of `goals JOIN players JOIN teams`. -/
structure JoinedRow where
  goal : Goal
  player : Player
  team : Team
  deriving DecidableEq, Repr

/-- The `FROM goals JOIN players ON players.id = goals.player_id AND
players.deleted_at IS NULL JOIN teams ON teams.id = players.team_id AND
teams.deleted_at IS NULL` part of the top-scorer query. -/
def joinGoalsPlayersTeams (db : DB) : List JoinedRow :=
  db.Goals.flatMap fun g =>
    (db.Players.filter fun p => decide (p.ID = g.PlayerID) && p.DeletedAt.isNone).flatMap fun p =>
      (db.Teams.filter fun t => decide (t.ID = p.TeamID) && t.DeletedAt.isNone).map fun t =>
        { goal := g, player := p, team := t }

/-- The `WHERE goals.deleted_at IS NULL AND goals.is_own_goal = false` part. -/
def scoringRows (db : DB) : List JoinedRow :=
  (joinGoalsPlayersTeams db).filter fun r => r.goal.DeletedAt.isNone && r.goal.IsOwnGoal == false

/-- The columns of `GROUP BY goals.player_id, players.name, players.team_id,
teams.name`. -/
structure GroupKey where
  PlayerID : UUID
  PlayerName : String
  TeamID : UUID
  TeamName : String
  deriving DecidableEq, Repr

def JoinedRow.key (r : JoinedRow) : GroupKey :=
  { PlayerID := r.goal.PlayerID, PlayerName := r.player.Name, TeamID := r.player.TeamID,
    TeamName := r.team.Name }

/-- The distinct values of a list, in order of first occurrence. -/
def distinct {α : Type} [DecidableEq α] : List α → List α
  | [] => []
  | x :: xs => x :: (distinct xs).filter (fun y => y ≠ x)

/-- The grouped rows with `COUNT(goals.id) as goal_count`, one per group. -/
def groupedScorers (db : DB) : List TopScorerResult :=
  (distinct ((scoringRows db).map JoinedRow.key)).map fun k =>
    { PlayerID := k.PlayerID, PlayerName := k.PlayerName, TeamID := k.TeamID,
      TeamName := k.TeamName,
      GoalCount := (((scoringRows db).filter fun r => decide (r.key = k)).length : Int) }

/-- The order `goal_count DESC`. -/
def goalCountDesc (a b : TopScorerResult) : Prop := b.GoalCount ≤ a.GoalCount

instance : DecidableRel goalCountDesc := fun a b => by
  unfold goalCountDesc; exact inferInstance

instance : IsTotal TopScorerResult goalCountDesc :=
  ⟨fun a b => by unfold goalCountDesc; omega⟩

instance : IsTrans TopScorerResult goalCountDesc :=
  ⟨fun a b c hab hbc => by unfold goalCountDesc at *; omega⟩

/-- The `LIMIT` clause as gorm builds it: present when the limit is not
negative. -/
def sqlLimit {α : Type} (limit : Int) (rows : List α) : List α :=
  if 0 ≤ limit then rows.take limit.toNat else rows

/-- What `ORDER BY goal_count DESC` allows the database to do with the grouped
rows: return them in any order that keeps every row once and has the goal
counts descending. The order among equal counts is open. -/
def admissibleOrder (rank : List TopScorerResult → List TopScorerResult) : Prop :=
  ∀ l, (rank l).Perm l ∧ (rank l).Pairwise goalCountDesc

/-- The method `goalRepositoryImpl.GetTopScorers` on a database that answers,
`rank` being the order in which that database returns the grouped rows for
`ORDER BY goal_count DESC` (an `admissibleOrder`). -/
def goalRepositoryImpl.GetTopScorersBy (rank : List TopScorerResult → List TopScorerResult)
    (db : DB) (limit : Int) : Except Error (List TopScorerResult) :=
  .ok (sqlLimit limit (rank (groupedScorers db)))

/-- One admissible order: a stable sort, equal counts staying in order of
first occurrence. -/
def firstStoredFirst (l : List TopScorerResult) : List TopScorerResult :=
  l.insertionSort goalCountDesc

/-- Another admissible order: equal counts in reverse order of occurrence. -/
def lastStoredFirst (l : List TopScorerResult) : List TopScorerResult :=
  l.reverse.insertionSort goalCountDesc

/-- The method `goalRepositoryImpl.GetTopScorers` on a database that answers
and returns equal counts in order of first occurrence, one of the answers SQL
admits; it serves to evaluate the code on sample data. -/
def goalRepositoryImpl.GetTopScorers (db : DB) (limit : Int) :
    Except Error (List TopScorerResult) :=
  goalRepositoryImpl.GetTopScorersBy firstStoredFirst db limit

/-! ## Definitions that follow the specification's wording -/

/-- The page handed on, in the specification's words: 1 when the parsed page
is below 1, the parsed page otherwise. -/
def specPage (page : Int) : Int := if page < 1 then 1 else page

/-- The page size handed on, in the specification's words: the parsed limit
when it lies in [1, 100], 10 otherwise. -/
def specLimit (limit : Int) : Int := if 1 ≤ limit ∧ limit ≤ 100 then limit else 10

/-- A home win of the team, in the specification's words: status completed,
the team is the home side, both scores present and the home score strictly
greater. -/
def specHomeWin (teamID : UUID) (m : Match) : Bool :=
  decide (m.Status = "completed") && decide (m.HomeTeamID = teamID) &&
    (match m.HomeScore, m.AwayScore with
     | some h, some a => decide (a < h)
     | _, _ => false)

/-- An away win of the team, in the specification's words: status completed,
the team is the away side, both scores present and the away score strictly
greater. -/
def specAwayWin (teamID : UUID) (m : Match) : Bool :=
  decide (m.Status = "completed") && decide (m.AwayTeamID = teamID) &&
    (match m.HomeScore, m.AwayScore with
     | some h, some a => decide (h < a)
     | _, _ => false)

/-- The win count of a team over a set of matches, in the specification's
words: the number of its home wins plus the number of its away wins. -/
def specWinCount (ms : List Match) (teamID : UUID) : Int :=
  ((ms.filter (specHomeWin teamID)).length : Int) + ((ms.filter (specAwayWin teamID)).length : Int)

/-- The win count as the use case obtains it: the sum of the two
`GetTeamWinCount` answers. -/
def summedWinCount (db : DB) (teamID : UUID) : Int :=
  (matchRepositoryImpl.GetTeamWinCount db teamID true).1 +
    (matchRepositoryImpl.GetTeamWinCount db teamID false).1

/-- A goal that counts for a player, in the specification's words: a goal of
that player that is not soft-deleted and not flagged as own goal. -/
def specCountedGoal (playerID : UUID) (g : Goal) : Bool :=
  decide (g.PlayerID = playerID) && g.DeletedAt.isNone && !g.IsOwnGoal

/-- A player's goal count, in the specification's words. -/
def specGoalCount (db : DB) (playerID : UUID) : Int :=
  ((db.Goals.filter (specCountedGoal playerID)).length : Int)

/-! ## Sample data -/

def sampleTeamA : Team := { ID := 1, Name := "Harimau", DeletedAt := none }
def sampleTeamB : Team := { ID := 2, Name := "Garuda", DeletedAt := none }

/-- A completed match, 2-1 for the home side. -/
def sampleMatch (id : UUID) : Match :=
  { ID := id, HomeTeamID := 1, AwayTeamID := 2, Status := "completed",
    HomeScore := some 2, AwayScore := some 1,
    HomeTeam := some sampleTeamA, AwayTeam := some sampleTeamB, Goals := [],
    DeletedAt := none }

def sampleScorer : TopScorerResult :=
  { PlayerID := 11, PlayerName := "Bima", TeamID := 1, TeamName := "Harimau", GoalCount := 4 }

/-- A match repository with three completed matches; team 1 has 3 home and 2
away wins, team 2 has 1 home and 5 away wins. -/
def sampleMatchRepo : MatchRepository :=
  { FindByIDWithDetails := fun id =>
      if id = 7 ∨ id = 8 ∨ id = 9 then .ok (sampleMatch id) else .error Error.ErrRecordNotFound
    GetTeamWinCount := fun teamID isHome =>
      if teamID = 1 then (if isHome then 3 else 2, none)
      else if teamID = 2 then (if isHome then 1 else 5, none)
      else (0, none)
    GetCompletedMatches := fun _ _ => .ok ([sampleMatch 7, sampleMatch 8, sampleMatch 9], 3) }

def sampleGoalRepo : GoalRepository :=
  { GetTopScorers := fun limit => .ok ([sampleScorer].take limit.toNat) }

def sampleMethods : MatchMethods :=
  { GetResult := fun _ => "home_win", GetResultDisplay := fun _ => "Harimau won" }

def sampleUseCase : reportUseCaseImpl :=
  { matchRepo := sampleMatchRepo, goalRepo := sampleGoalRepo, methods := sampleMethods }

/-- The report `GetMatchReport` builds for match 7 of the sample data. -/
def sampleReport : MatchReport :=
  { Match := sampleMatch 7, HomeTeam := some sampleTeamA, AwayTeam := some sampleTeamB,
    HomeScore := 2, AwayScore := 1, MatchResult := "home_win",
    MatchResultDisplay := "Harimau won", Goals := [], TopScorer := some sampleScorer,
    HomeTeamTotalWins := 5, AwayTeamTotalWins := 6 }

/-- The page `GetAllMatchReports` builds for the sample data. -/
def sampleReports : List MatchReport :=
  [ { sampleReport with Match := sampleMatch 7 },
    { sampleReport with Match := sampleMatch 8, TopScorer := none },
    { sampleReport with Match := sampleMatch 9, TopScorer := none } ]

/-- A token service that accepts two tokens and reports every other token as
expired or malformed. -/
def sampleJWT : JWTService :=
  { ValidateToken := fun t =>
      if t = "user-token" then
        .ok { UserID := 5, Email := "user@example.com", Role := Value.string "user" }
      else if t = "admin-token" then
        .ok { UserID := 6, Email := "admin@example.com", Role := Value.string "admin" }
      else if t = "old-token" then .error (Error.other "token is expired")
      else .error (Error.other "token is malformed") }

/-- A second token service, failing with different errors. -/
def sampleJWT2 : JWTService :=
  { ValidateToken := fun _ => .error (Error.other "signature is invalid") }

/-- A fresh request context carrying the given Authorization header value. -/
def sampleContext (authorization : String) : Context :=
  { Headers := [("Authorization", authorization)], Keys := [], Responses := [],
    Aborted := false, Log := [] }

/-- A final handler that answers 200. -/
def sampleHandler (c : Context) : Context :=
  c.JSON (responseSuccess 200 "ok" (Payload.topScorers []))

/-- A database whose only match is completed, won 2-1 at home by team 1, and
soft-deleted. -/
def softDeletedWinDB : DB :=
  { Matches := [{ sampleMatch 7 with DeletedAt := some 1700000000 }], Goals := [],
    Players := [], Teams := [] }

/-- A league with two teams and three players, one of them soft-deleted.
Bima (11) has two counted goals and an own goal, Sari (12) has three counted
goals and a soft-deleted one, the soft-deleted player Joko (13) has one goal. -/
def sampleLeague : DB :=
  { Matches := [sampleMatch 7]
    Players :=
      [ { ID := 11, Name := "Bima", TeamID := 1, DeletedAt := none },
        { ID := 12, Name := "Sari", TeamID := 2, DeletedAt := none },
        { ID := 13, Name := "Joko", TeamID := 1, DeletedAt := some 1700000000 } ]
    Teams := [sampleTeamA, sampleTeamB]
    Goals :=
      [ { ID := 101, MatchID := 7, PlayerID := 11, TeamID := 1, Minute := 10,
          IsOwnGoal := false, DeletedAt := none },
        { ID := 102, MatchID := 7, PlayerID := 12, TeamID := 2, Minute := 20,
          IsOwnGoal := false, DeletedAt := none },
        { ID := 103, MatchID := 7, PlayerID := 11, TeamID := 2, Minute := 30,
          IsOwnGoal := true, DeletedAt := none },
        { ID := 104, MatchID := 7, PlayerID := 12, TeamID := 2, Minute := 40,
          IsOwnGoal := false, DeletedAt := none },
        { ID := 105, MatchID := 7, PlayerID := 11, TeamID := 1, Minute := 50,
          IsOwnGoal := false, DeletedAt := none },
        { ID := 106, MatchID := 7, PlayerID := 12, TeamID := 2, Minute := 60,
          IsOwnGoal := false, DeletedAt := none },
        { ID := 107, MatchID := 7, PlayerID := 12, TeamID := 2, Minute := 70,
          IsOwnGoal := false, DeletedAt := some 1700000000 },
        { ID := 108, MatchID := 7, PlayerID := 13, TeamID := 1, Minute := 80,
          IsOwnGoal := false, DeletedAt := none } ] }

/-! ## Definitions for the composed gates and the error paths -/

/-- The errors of the five queries `GetMatchReport` makes after the match
lookup, in call order: the four win counts, then the top scorers. -/
def reportUseCaseImpl.queryErrors (uc : reportUseCaseImpl) (m : Match) : List (Option Error) :=
  [ (uc.matchRepo.GetTeamWinCount m.HomeTeamID true).2,
    (uc.matchRepo.GetTeamWinCount m.HomeTeamID false).2,
    (uc.matchRepo.GetTeamWinCount m.AwayTeamID false).2,
    (uc.matchRepo.GetTeamWinCount m.AwayTeamID true).2,
    (match uc.goalRepo.GetTopScorers 1 with
     | .error err => some err
     | .ok _ => none) ]

/-- The first failure in a sequence of call results. -/
def firstError : List (Option Error) → Option Error
  | [] => none
  | some err :: _ => some err
  | none :: rest => firstError rest

/-- A goal repository whose top-scorer query fails. -/
def failingGoalRepo : GoalRepository :=
  { GetTopScorers := fun _ => .error (Error.other "connection refused") }

/-- The sample use case with the failing goal repository. -/
def failingScorerUseCase : reportUseCaseImpl :=
  { matchRepo := sampleMatchRepo, goalRepo := failingGoalRepo, methods := sampleMethods }

/-! ## The match repository's detail and page queries -/

/-- Go's `a - b` on `int`. -/
def sub64 (a b : Int) : Int := wrap64 (a - b)

/-- Go's `a * b` on `int`. -/
def mul64 (a b : Int) : Int := wrap64 (a * b)

/-- The `Preload("HomeTeam")`, `Preload("AwayTeam")` and `Preload("Goals")`
calls: the teams by id, and the goals of the match as
`SELECT * FROM goals WHERE match_id = ? AND deleted_at IS NULL` returns them.
The query has no `ORDER BY`; the embedding returns the rows in stored order,
one of the answers SQL admits. -/
def preloadDetails (db : DB) (m : Match) : Match :=
  { m with
    HomeTeam := db.Teams.find? fun t => decide (t.ID = m.HomeTeamID) && t.DeletedAt.isNone
    AwayTeam := db.Teams.find? fun t => decide (t.ID = m.AwayTeamID) && t.DeletedAt.isNone
    Goals := db.Goals.filter fun g => decide (g.MatchID = m.ID) && g.DeletedAt.isNone }

/-- The method `matchRepositoryImpl.FindByIDWithDetails` on a database that
answers: `First(&match, "id = ?", id)` under gorm's soft-delete condition,
`gorm.ErrRecordNotFound` when no row matches. -/
def matchRepositoryImpl.FindByIDWithDetails (db : DB) (id : UUID) : Except Error Match :=
  match db.Matches.find? (fun m => decide (m.ID = id) && m.DeletedAt.isNone) with
  | none => .error Error.ErrRecordNotFound
  | some m => .ok (preloadDetails db m)

/-- The statement `offset := (page - 1) * limit` of `GetCompletedMatches`. -/
def matchRepositoryImpl.pageOffset (page limit : Int) : Int := mul64 (sub64 page 1) limit

/-- The `OFFSET` clause as gorm builds it: present when the offset is
positive. -/
def sqlOffset {α : Type} (offset : Int) (rows : List α) : List α :=
  if 0 < offset then rows.drop offset.toNat else rows

/-- The method `matchRepositoryImpl.GetCompletedMatches` on a database that
answers. `order` is the clause `ORDER BY match_date DESC, match_time DESC`,
over columns the embedded `Match` does not carry. -/
def matchRepositoryImpl.GetCompletedMatches (order : List Match → List Match) (db : DB)
    (page limit : Int) : Except Error (List Match × Int) :=
  let offset := matchRepositoryImpl.pageOffset page limit
  let completed :=
    db.Matches.filter fun m => decide (m.Status = MatchStatusCompleted) && m.DeletedAt.isNone
  let total : Int := (completed.length : Int)
  let rows := sqlLimit limit (sqlOffset offset (order completed))
  .ok (rows.map (preloadDetails db), total)

/-- The match repository over a database. -/
def matchRepositoryImpl.toRepository (order : List Match → List Match) (db : DB) :
    MatchRepository :=
  { FindByIDWithDetails := matchRepositoryImpl.FindByIDWithDetails db
    GetTeamWinCount := matchRepositoryImpl.GetTeamWinCount db
    GetCompletedMatches := matchRepositoryImpl.GetCompletedMatches order db }

/-- The goal repository over a database. -/
def goalRepositoryImpl.toRepository (db : DB) : GoalRepository :=
  { GetTopScorers := goalRepositoryImpl.GetTopScorers db }

/-- The report use case wired to the two database repositories. -/
def databaseUseCase (order : List Match → List Match) (methods : MatchMethods) (db : DB) :
    reportUseCaseImpl :=
  { matchRepo := matchRepositoryImpl.toRepository order db
    goalRepo := goalRepositoryImpl.toRepository db
    methods := methods }

/-- A database in which the goal of minute 80 of match 7 was recorded before
the goal of minute 10. -/
def lateEntryDB : DB :=
  { Matches := [sampleMatch 7]
    Players := [{ ID := 11, Name := "Bima", TeamID := 1, DeletedAt := none }]
    Teams := [sampleTeamA, sampleTeamB]
    Goals :=
      [ { ID := 201, MatchID := 7, PlayerID := 11, TeamID := 1, Minute := 80,
          IsOwnGoal := false, DeletedAt := none },
        { ID := 202, MatchID := 7, PlayerID := 11, TeamID := 1, Minute := 10,
          IsOwnGoal := false, DeletedAt := none } ] }

/-- The largest `int`. -/
def maxInt64 : Int := 9223372036854775807

/-! ## The remaining handlers -/

/-- Modelled from the spec: the constant `entity.RoleUser`, the role value
`user`. -/
def RoleUser : String := "user"

/-- The struct `dto.LoginRequest`. -/
structure LoginRequest where
  Email : String
  Password : String
  deriving DecidableEq, Repr

/-- The struct `dto.RegisterRequest`. -/
structure RegisterRequest where
  Name : String
  Email : String
  Password : String
  deriving DecidableEq, Repr

/-- The interface `usecase.AuthUseCase`, as the auth handlers call it. `Login`
answers the token and the user. -/
structure AuthUseCase where
  Login : String → String → Except Error (String × User)
  Register : String → String → String → String → Except Error User
  GetUserByID : UUID → Except Error User

/-- The handler `AuthHandler.Login`, from the outcome of `c.ShouldBindJSON`:
the bound request, or the text of the binding error. The result is the value
handed to `c.JSON`. -/
def AuthHandler.Login (authUseCase : AuthUseCase) (bound : Except String LoginRequest) :
    Written :=
  match bound with
  | .error text => responseError StatusBadRequest "Invalid request body" (some text)
  | .ok req =>
    match authUseCase.Login req.Email req.Password with
    | .error err =>
        if errorsIs err Error.ErrInvalidCredentials then
          responseError StatusUnauthorized "Invalid email or password" none
        else
          responseError StatusInternalServerError "Failed to login" (some err.text)
    | .ok (token, user) =>
        responseSuccess StatusOK "Login successful" (Payload.auth token user)

/-- The handler `AuthHandler.Register`, from the outcome of
`c.ShouldBindJSON`. -/
def AuthHandler.Register (authUseCase : AuthUseCase) (bound : Except String RegisterRequest) :
    Written :=
  match bound with
  | .error text => responseError StatusBadRequest "Invalid request body" (some text)
  | .ok req =>
    match authUseCase.Register req.Name req.Email req.Password RoleUser with
    | .error err =>
        if errorsIs err Error.ErrUserAlreadyExists then
          responseError StatusConflict "User with this email already exists" none
        else
          responseError StatusInternalServerError "Failed to register user" (some err.text)
    | .ok user =>
        responseSuccess StatusCreated "User registered successfully" (Payload.user user)

/-- The handler `AuthHandler.GetProfile`. The type assertion
`userID.(uuid.UUID)` panics on a value of another type, which is `none`. -/
def AuthHandler.GetProfile (authUseCase : AuthUseCase) (c : Context) : Option Written :=
  match c.Get UserIDKey with
  | none => some (responseError StatusUnauthorized "User not authenticated" none)
  | some (Value.uuid userID) =>
    match authUseCase.GetUserByID userID with
    | .error err =>
        if errorsIs err Error.ErrUserNotFound then
          some (responseError StatusNotFound "User not found" none)
        else
          some (responseError StatusInternalServerError "Failed to get user profile"
            (some err.text))
    | .ok user =>
        some (responseSuccess StatusOK "Profile retrieved successfully" (Payload.user user))
  | some _ => none

/-- The handler `ReportHandler.GetMatchReport`, from the outcome of
`uuid.Parse(c.Param("id"))`: the identifier, or the text of the parse error. -/
def ReportHandler.GetMatchReport (reportUseCase : ReportUseCase) (parsed : Except String UUID) :
    Written :=
  match parsed with
  | .error _ => responseError StatusBadRequest "Invalid match ID" none
  | .ok id =>
    match reportUseCase.GetMatchReport id with
    | .error err =>
        if errorsIs err Error.ErrMatchNotFound then
          responseError StatusNotFound "Match not found" none
        else
          responseError StatusInternalServerError "Failed to get match report" (some err.text)
    | .ok report =>
        responseSuccess StatusOK "Match report retrieved successfully"
          (Payload.matchReport report)

/-- An auth use case in which no user exists. -/
def emptyAuthUseCase : AuthUseCase :=
  { Login := fun _ _ => .error Error.ErrInvalidCredentials
    Register := fun name email _ role =>
      .ok { ID := 1, Email := email, Name := name, Role := role }
    GetUserByID := fun _ => .error Error.ErrUserNotFound }

/-- A request context that passed the authentication gate for user 5. -/
def authenticatedContext : Context :=
  { Headers := [("Authorization", "Bearer user-token")]
    Keys := [("user_role", Value.string "user"), ("user_email", Value.string "user@example.com"),
             ("user_id", Value.uuid 5)]
    Responses := [], Aborted := false, Log := [Event.validateToken "user-token", Event.next] }

/-- A report use case all of whose operations fail with the given error. -/
def failingReportUseCase (err : Error) : ReportUseCase :=
  { GetMatchReport := fun _ => .error err
    GetAllMatchReports := fun _ _ => .error err
    GetTopScorers := fun _ => .error err }

/-! ## Definitions for the ranking of scorers -/

/-- The report use case wired to the database repositories, the goal
repository returning the grouped rows in the order `rank`. -/
def databaseUseCaseBy (rank : List TopScorerResult → List TopScorerResult)
    (order : List Match → List Match) (methods : MatchMethods) (db : DB) : reportUseCaseImpl :=
  { matchRepo := matchRepositoryImpl.toRepository order db
    goalRepo := { GetTopScorers := goalRepositoryImpl.GetTopScorersBy rank db }
    methods := methods }

/-- A league whose only scorer, Bima (11) with two counted goals, plays for a
soft-deleted team. -/
def orphanLeague : DB :=
  { Matches := [sampleMatch 7]
    Players := [{ ID := 11, Name := "Bima", TeamID := 1, DeletedAt := none }]
    Teams := [{ ID := 1, Name := "Harimau", DeletedAt := some 1700000000 }, sampleTeamB]
    Goals :=
      [ { ID := 301, MatchID := 7, PlayerID := 11, TeamID := 1, Minute := 10,
          IsOwnGoal := false, DeletedAt := none },
        { ID := 302, MatchID := 7, PlayerID := 11, TeamID := 1, Minute := 20,
          IsOwnGoal := false, DeletedAt := none } ] }

/-- A league with matches 7 and 8 in which Bima (11) and Sari (12) have one
counted goal each. -/
def tiedLeague : DB :=
  { Matches := [sampleMatch 7, sampleMatch 8]
    Players :=
      [ { ID := 11, Name := "Bima", TeamID := 1, DeletedAt := none },
        { ID := 12, Name := "Sari", TeamID := 2, DeletedAt := none } ]
    Teams := [sampleTeamA, sampleTeamB]
    Goals :=
      [ { ID := 401, MatchID := 7, PlayerID := 11, TeamID := 1, Minute := 10,
          IsOwnGoal := false, DeletedAt := none },
        { ID := 402, MatchID := 8, PlayerID := 12, TeamID := 2, Minute := 20,
          IsOwnGoal := false, DeletedAt := none } ] }

/-- The ranking entry of a player, in the specification's words: the player,
the team, and the player's goal count. -/
def specScorerEntry (db : DB) (p : Player) (t : Team) : TopScorerResult :=
  { PlayerID := p.ID, PlayerName := p.Name, TeamID := p.TeamID, TeamName := t.Name,
    GoalCount := specGoalCount db p.ID }

/-! ## Properties -/

theorem wrap64_of_inInt64 {x : Int} (h : inInt64 x) : wrap64 x = x := by
  unfold inInt64 at h
  unfold wrap64
  omega

theorem NewMeta_of_pos (page limit total : Int) (hl : 1 ≤ limit) (ht : 0 ≤ total)
    (ht2 : inInt64 total) :
    ∃ m, NewMeta page limit total = some m ∧ m.CurrentPage = page ∧ m.PerPage = limit ∧
      m.TotalItems = total ∧ total ≤ m.TotalPages * limit ∧
      (∀ n : Int, total ≤ n * limit → m.TotalPages ≤ n) := by
  have hlpos : 0 < limit := by omega
  have hdm : Int.tdiv total limit = total / limit := Int.tdiv_eq_ediv ht (by omega)
  have hmm : Int.tmod total limit = total % limit := Int.tmod_eq_emod ht (by omega)
  have hq0 : 0 ≤ total / limit := Int.ediv_nonneg ht (by omega)
  have hr0 : 0 ≤ total % limit := Int.emod_nonneg _ (by omega)
  have hrl : total % limit < limit := Int.emod_lt_of_pos _ hlpos
  have hdecomp : limit * (total / limit) + total % limit = total := Int.ediv_add_emod total limit
  have hqle : total / limit ≤ total := by nlinarith
  have hwq : wrap64 (total / limit) = total / limit := by
    apply wrap64_of_inInt64
    unfold inInt64 at *; omega
  have hne : limit ≠ 0 := by omega
  by_cases hr : total % limit = 0
  · refine ⟨⟨page, limit, total, total / limit⟩, ?_, rfl, rfl, rfl, ?_, ?_⟩
    · simp [NewMeta, hne, div64, mod64, hdm, hmm, hr, hwq]
    · show total ≤ total / limit * limit
      nlinarith
    · intro n hn
      show total / limit ≤ n
      by_contra hlt
      have : n + 1 ≤ total / limit := by omega
      nlinarith
  · have hq1 : total / limit + 1 < 2 ^ 63 := by
      have h2 : 2 ≤ limit := by
        by_contra h
        have : limit = 1 := by omega
        subst this
        simp at hr
      unfold inInt64 at ht2
      nlinarith
    have hwq1 : wrap64 (total / limit + 1) = total / limit + 1 := by
      apply wrap64_of_inInt64
      unfold inInt64; omega
    refine ⟨⟨page, limit, total, total / limit + 1⟩, ?_, rfl, rfl, rfl, ?_, ?_⟩
    · simp [NewMeta, hne, div64, mod64, add64, hdm, hmm, hr, hwq, hwq1]
    · show total ≤ (total / limit + 1) * limit
      nlinarith
    · intro n hn
      show total / limit + 1 ≤ n
      by_contra hlt
      have : n ≤ total / limit := by omega
      have hr1 : 1 ≤ total % limit := by omega
      nlinarith

/-- C1: for every page, every limit ≥ 1 and every total ≥ 0 (an `int64`),
`NewMeta page limit total` returns a `Meta` (it does not panic) whose
`CurrentPage`, `PerPage` and `TotalItems` are the arguments and whose
`TotalPages` is the ceiling of `total / limit`, i.e. the least `n` with
`n * limit ≥ total`; and `NewMeta 1 10 25` is `{1, 10, 25, 3}` while
`NewMeta 2 10 20` has `TotalPages = 2`. -/
theorem NewMeta_total_pages_is_ceiling (page limit total : Int) (hl : 1 ≤ limit)
    (ht : 0 ≤ total) (ht2 : inInt64 total) :
    (∃ m, NewMeta page limit total = some m ∧ m.CurrentPage = page ∧ m.PerPage = limit ∧
      m.TotalItems = total ∧ total ≤ m.TotalPages * limit ∧
      (∀ n : Int, total ≤ n * limit → m.TotalPages ≤ n)) ∧
    NewMeta 1 10 25 =
      some { CurrentPage := 1, PerPage := 10, TotalItems := 25, TotalPages := 3 } ∧
    (NewMeta 2 10 20).map Meta.TotalPages = some 2 :=
  ⟨NewMeta_of_pos page limit total hl ht ht2, by decide, by decide⟩

theorem NewMeta_total_pages_is_ceiling_witness :
    (1 : Int) ≤ 7 ∧ (0 : Int) ≤ 30 ∧ inInt64 30 ∧
    NewMeta 4 7 30 = some { CurrentPage := 4, PerPage := 7, TotalItems := 30, TotalPages := 5 } ∧
    ((∃ m, NewMeta 4 7 30 = some m ∧ m.CurrentPage = 4 ∧ m.PerPage = 7 ∧
      m.TotalItems = 30 ∧ 30 ≤ m.TotalPages * 7 ∧
      (∀ n : Int, 30 ≤ n * 7 → m.TotalPages ≤ n)) ∧
    NewMeta 1 10 25 =
      some { CurrentPage := 1, PerPage := 10, TotalItems := 25, TotalPages := 3 } ∧
    (NewMeta 2 10 20).map Meta.TotalPages = some 2) :=
  ⟨by decide, by decide, by decide, by decide,
    NewMeta_total_pages_is_ceiling 4 7 30 (by decide) (by decide) (by decide)⟩

theorem specPage_ge_one (page : Int) : 1 ≤ specPage page := by
  unfold specPage; split <;> omega

theorem specLimit_bounds (limit : Int) : 1 ≤ specLimit limit ∧ specLimit limit ≤ 100 := by
  unfold specLimit; split <;> omega

theorem clamp_page_eq (page : Int) : (if page < 1 then 1 else page) = specPage page := rfl

theorem clamp_limit_eq (limit : Int) :
    (if limit < 1 ∨ limit > 100 then 10 else limit) = specLimit limit := by
  unfold specLimit
  by_cases h : limit < 1 ∨ limit > 100
  · rw [if_pos h, if_neg (by omega)]
  · rw [if_neg h, if_pos (by omega)]

theorem NewMeta_isSome_of_ne_zero (page limit total : Int) (h : limit ≠ 0) :
    ∃ m, NewMeta page limit total = some m ∧ m.CurrentPage = page ∧ m.PerPage = limit ∧
      m.TotalItems = total := by
  unfold NewMeta
  rw [if_neg h]
  exact ⟨_, rfl, rfl, rfl, rfl⟩

/-- C2: in the `GetAllMatchReports` handler, for every parsed pair
`(page, limit)`, the handler completes, the use case is called with
`specPage page` (1 if `page < 1`, else `page`) and `specLimit limit` (`limit`
if `1 ≤ limit ≤ 100`, else 10), and when the use case succeeds `NewMeta` is
called with the same two values and, returning a `Meta`, is never called with
limit 0; hence `1 ≤ page'` and `1 ≤ limit' ≤ 100`. The `GetTopScorers` handler
passes `specLimit limit` to its use case. -/
theorem GetAllMatchReports_handler_clamps (reportUseCase : ReportUseCase) (page limit : Int) :
    1 ≤ specPage page ∧ 1 ≤ specLimit limit ∧ specLimit limit ≤ 100 ∧
    (∃ run, ReportHandler.GetAllMatchReports reportUseCase page limit = some run ∧
      run.useCaseArgs = [specPage page, specLimit limit] ∧
      (∀ reports total,
        reportUseCase.GetAllMatchReports (specPage page) (specLimit limit) = .ok (reports, total) →
          run.metaArgs = some (specPage page, specLimit limit, total) ∧
          NewMeta (specPage page) (specLimit limit) total = run.written.Body.Meta ∧
          run.written.Body.Meta ≠ none) ∧
      (∀ p l t, run.metaArgs = some (p, l, t) → l ≠ 0)) ∧
    (ReportHandler.GetTopScorers reportUseCase limit).useCaseArgs = [specLimit limit] := by
  have hp := specPage_ge_one page
  have hl := specLimit_bounds limit
  refine ⟨hp, hl.1, hl.2, ?_, ?_⟩
  · unfold ReportHandler.GetAllMatchReports
    simp only [clamp_page_eq, clamp_limit_eq]
    cases huc : reportUseCase.GetAllMatchReports (specPage page) (specLimit limit) with
    | error err =>
        refine ⟨_, rfl, rfl, ?_, ?_⟩
        · intro reports total h; cases h
        · intro p l t h; cases h
    | ok res =>
        obtain ⟨reports, total⟩ := res
        obtain ⟨m, hm, -, -, -⟩ :=
          NewMeta_isSome_of_ne_zero (specPage page) (specLimit limit) total (by omega)
        simp only [hm]
        refine ⟨_, rfl, rfl, ?_, ?_⟩
        · intro reports2 total2 h
          cases h
          refine ⟨rfl, ?_, ?_⟩
          · rw [hm]; rfl
          · simp [responseSuccessWithMeta]
        · intro p l t h
          simp only [Option.some.injEq, Prod.mk.injEq] at h
          omega
  · unfold ReportHandler.GetTopScorers
    simp only [clamp_limit_eq]
    cases reportUseCase.GetTopScorers (specLimit limit) <;> rfl


theorem GetMatchReport_ok_inv (uc : reportUseCaseImpl) (matchID : UUID) (r : MatchReport)
    (h : uc.GetMatchReport matchID = .ok r) :
    ∃ m topScorers,
      uc.matchRepo.FindByIDWithDetails matchID = .ok m ∧
      (uc.matchRepo.GetTeamWinCount m.HomeTeamID true).2 = none ∧
      (uc.matchRepo.GetTeamWinCount m.HomeTeamID false).2 = none ∧
      (uc.matchRepo.GetTeamWinCount m.AwayTeamID false).2 = none ∧
      (uc.matchRepo.GetTeamWinCount m.AwayTeamID true).2 = none ∧
      uc.goalRepo.GetTopScorers 1 = .ok topScorers ∧
      r = { Match := m
            HomeTeam := m.HomeTeam
            AwayTeam := m.AwayTeam
            HomeScore := resolveScore m.HomeScore
            AwayScore := resolveScore m.AwayScore
            MatchResult := uc.methods.GetResult m
            MatchResultDisplay := uc.methods.GetResultDisplay m
            Goals := m.Goals
            TopScorer := if topScorers.length > 0 then topScorers.head? else none
            HomeTeamTotalWins :=
              add64 (uc.matchRepo.GetTeamWinCount m.HomeTeamID true).1
                (uc.matchRepo.GetTeamWinCount m.HomeTeamID false).1
            AwayTeamTotalWins :=
              add64 (uc.matchRepo.GetTeamWinCount m.AwayTeamID false).1
                (uc.matchRepo.GetTeamWinCount m.AwayTeamID true).1 } := by
  unfold reportUseCaseImpl.GetMatchReport at h
  cases hf : uc.matchRepo.FindByIDWithDetails matchID with
  | error err =>
      rw [hf] at h
      simp only at h
      split at h <;> cases h
  | ok m =>
      rw [hf] at h
      simp only at h
      rcases h1 : uc.matchRepo.GetTeamWinCount m.HomeTeamID true with ⟨a1, _ | e1⟩
      rcases h2 : uc.matchRepo.GetTeamWinCount m.HomeTeamID false with ⟨a2, _ | e2⟩
      rcases h3 : uc.matchRepo.GetTeamWinCount m.AwayTeamID false with ⟨a3, _ | e3⟩
      rcases h4 : uc.matchRepo.GetTeamWinCount m.AwayTeamID true with ⟨a4, _ | e4⟩
      all_goals (try (rw [h1] at h)); (try (rw [h2] at h)); (try (rw [h3] at h)); (try (rw [h4] at h)); simp only at h
      all_goals (try contradiction)
      cases ht : uc.goalRepo.GetTopScorers 1 with
      | error err => rw [ht] at h; cases h
      | ok topScorers =>
          rw [ht] at h
          simp only [Except.ok.injEq] at h
          refine ⟨m, topScorers, rfl, ?_, ?_, ?_, ?_, rfl, ?_⟩
          · rw [h1]
          · rw [h2]
          · rw [h3]
          · rw [h4]
          · rw [h1, h2, h3, h4]; exact h.symm

/-- C3: whenever `GetMatchReport` succeeds, the report's `HomeTeamTotalWins` is
the (64-bit) sum of `GetTeamWinCount(homeTeamID, true)` and
`GetTeamWinCount(homeTeamID, false)` and `AwayTeamTotalWins` is the sum of
`GetTeamWinCount(awayTeamID, false)` and `GetTeamWinCount(awayTeamID, true)`,
for the home and away team of the match found; the sums are the mathematical
sums whenever these fit in an `int64`. -/
theorem GetMatchReport_total_wins_are_sums (uc : reportUseCaseImpl) (matchID : UUID)
    (r : MatchReport) (h : uc.GetMatchReport matchID = .ok r) :
    ∃ m, uc.matchRepo.FindByIDWithDetails matchID = .ok m ∧
      r.HomeTeamTotalWins =
        add64 (uc.matchRepo.GetTeamWinCount m.HomeTeamID true).1
          (uc.matchRepo.GetTeamWinCount m.HomeTeamID false).1 ∧
      r.AwayTeamTotalWins =
        add64 (uc.matchRepo.GetTeamWinCount m.AwayTeamID false).1
          (uc.matchRepo.GetTeamWinCount m.AwayTeamID true).1 ∧
      (inInt64 ((uc.matchRepo.GetTeamWinCount m.HomeTeamID true).1 +
          (uc.matchRepo.GetTeamWinCount m.HomeTeamID false).1) →
        r.HomeTeamTotalWins =
          (uc.matchRepo.GetTeamWinCount m.HomeTeamID true).1 +
            (uc.matchRepo.GetTeamWinCount m.HomeTeamID false).1) ∧
      (inInt64 ((uc.matchRepo.GetTeamWinCount m.AwayTeamID false).1 +
          (uc.matchRepo.GetTeamWinCount m.AwayTeamID true).1) →
        r.AwayTeamTotalWins =
          (uc.matchRepo.GetTeamWinCount m.AwayTeamID false).1 +
            (uc.matchRepo.GetTeamWinCount m.AwayTeamID true).1) := by
  obtain ⟨m, topScorers, hf, -, -, -, -, -, hr⟩ := GetMatchReport_ok_inv uc matchID r h
  subst hr
  refine ⟨m, hf, rfl, rfl, ?_, ?_⟩
  · intro hin
    exact wrap64_of_inInt64 hin
  · intro hin
    exact wrap64_of_inInt64 hin

theorem GetMatchReport_total_wins_are_sums_witness :
    sampleUseCase.GetMatchReport 7 = .ok sampleReport ∧
    sampleReport.HomeTeamTotalWins = 5 ∧ sampleReport.AwayTeamTotalWins = 6 ∧
    ∃ m, sampleUseCase.matchRepo.FindByIDWithDetails 7 = .ok m ∧
      sampleReport.HomeTeamTotalWins =
        add64 (sampleUseCase.matchRepo.GetTeamWinCount m.HomeTeamID true).1
          (sampleUseCase.matchRepo.GetTeamWinCount m.HomeTeamID false).1 ∧
      sampleReport.AwayTeamTotalWins =
        add64 (sampleUseCase.matchRepo.GetTeamWinCount m.AwayTeamID false).1
          (sampleUseCase.matchRepo.GetTeamWinCount m.AwayTeamID true).1 ∧
      (inInt64 ((sampleUseCase.matchRepo.GetTeamWinCount m.HomeTeamID true).1 +
          (sampleUseCase.matchRepo.GetTeamWinCount m.HomeTeamID false).1) →
        sampleReport.HomeTeamTotalWins =
          (sampleUseCase.matchRepo.GetTeamWinCount m.HomeTeamID true).1 +
            (sampleUseCase.matchRepo.GetTeamWinCount m.HomeTeamID false).1) ∧
      (inInt64 ((sampleUseCase.matchRepo.GetTeamWinCount m.AwayTeamID false).1 +
          (sampleUseCase.matchRepo.GetTeamWinCount m.AwayTeamID true).1) →
        sampleReport.AwayTeamTotalWins =
          (sampleUseCase.matchRepo.GetTeamWinCount m.AwayTeamID false).1 +
            (sampleUseCase.matchRepo.GetTeamWinCount m.AwayTeamID true).1) :=
  ⟨rfl, rfl, rfl, GetMatchReport_total_wins_are_sums sampleUseCase 7 sampleReport rfl⟩

theorem buildListReport_topScorer (uc : reportUseCaseImpl) (m : Match) :
    (uc.buildListReport m).TopScorer = none := rfl

theorem attachTopScorer_nil (reports : List MatchReport) : attachTopScorer reports [] = reports := by
  simp [attachTopScorer]

theorem attachTopScorer_cons (r : MatchReport) (rest : List MatchReport) (s : TopScorerResult)
    (ss : List TopScorerResult) :
    attachTopScorer (r :: rest) (s :: ss) = { r with TopScorer := some s } :: rest := by
  simp [attachTopScorer]

theorem attachTopScorer_nil_left (ss : List TopScorerResult) : attachTopScorer [] ss = [] := by
  simp [attachTopScorer]

/-- C5: for every successful `GetAllMatchReports`, when the league-wide
top-scorer query succeeds with a non-empty result the report at index 0 (if
there is one) carries its first element and every report at an index ≥ 1
carries none; when the query returns no scorer (an empty result or an error),
no report carries one. -/
theorem GetAllMatchReports_top_scorer_on_first_only (uc : reportUseCaseImpl) (page limit : Int)
    (reports : List MatchReport) (total : Int)
    (h : uc.GetAllMatchReports page limit = .ok (reports, total)) :
    (∀ s rest, uc.goalRepo.GetTopScorers 1 = .ok (s :: rest) →
      (∀ r, reports[0]? = some r → r.TopScorer = some s) ∧
      (∀ i r, 1 ≤ i → reports[i]? = some r → r.TopScorer = none)) ∧
    (uc.goalRepo.GetTopScorers 1 = .ok [] → ∀ r ∈ reports, r.TopScorer = none) ∧
    (∀ err, uc.goalRepo.GetTopScorers 1 = .error err → ∀ r ∈ reports, r.TopScorer = none) := by
  unfold reportUseCaseImpl.GetAllMatchReports at h
  cases hc : uc.matchRepo.GetCompletedMatches page limit with
  | error err => rw [hc] at h; cases h
  | ok res =>
    obtain ⟨ms, total2⟩ := res
    rw [hc] at h
    simp only [Except.ok.injEq, Prod.mk.injEq] at h
    obtain ⟨hrep, -⟩ := h
    have hall : ∀ r ∈ ms.map uc.buildListReport, r.TopScorer = none := by
      intro r hr
      obtain ⟨m, -, rfl⟩ := List.mem_map.mp hr
      rfl
    refine ⟨?_, ?_, ?_⟩
    · intro s rest hs
      rw [hs] at hrep
      simp only at hrep
      cases hms : ms.map uc.buildListReport with
      | nil =>
          rw [hms, attachTopScorer_nil_left] at hrep
          subst hrep
          exact ⟨fun r hr => by simp at hr, fun i r _ hr => by simp at hr⟩
      | cons r0 rs =>
          rw [hms, attachTopScorer_cons] at hrep
          subst hrep
          refine ⟨?_, ?_⟩
          · intro r hr
            simp only [List.getElem?_cons_zero, Option.some.injEq] at hr
            subst hr
            rfl
          · intro i r hi hr
            obtain ⟨j, rfl⟩ : ∃ j, i = j + 1 := ⟨i - 1, by omega⟩
            simp only [List.getElem?_cons_succ] at hr
            apply hall
            rw [hms]
            exact List.mem_cons_of_mem _ (List.getElem?_mem hr)
    · intro hs r hr
      rw [hs] at hrep
      simp only [attachTopScorer_nil] at hrep
      subst hrep
      exact hall r hr
    · intro err hs r hr
      rw [hs] at hrep
      simp only at hrep
      subst hrep
      exact hall r hr

theorem GetAllMatchReports_top_scorer_on_first_only_witness :
    sampleUseCase.GetAllMatchReports 1 10 = .ok (sampleReports, 3) ∧
    sampleReports.map MatchReport.TopScorer = [some sampleScorer, none, none] ∧
    ((∀ s rest, sampleUseCase.goalRepo.GetTopScorers 1 = .ok (s :: rest) →
      (∀ r, sampleReports[0]? = some r → r.TopScorer = some s) ∧
      (∀ i r, 1 ≤ i → sampleReports[i]? = some r → r.TopScorer = none)) ∧
    (sampleUseCase.goalRepo.GetTopScorers 1 = .ok [] →
      ∀ r ∈ sampleReports, r.TopScorer = none) ∧
    (∀ err, sampleUseCase.goalRepo.GetTopScorers 1 = .error err →
      ∀ r ∈ sampleReports, r.TopScorer = none)) :=
  ⟨rfl, rfl,
    GetAllMatchReports_top_scorer_on_first_only sampleUseCase 1 10 sampleReports 3 rfl⟩


theorem HasPrefix_append (pre t : String) : HasPrefix (pre ++ t) pre = true := by
  unfold HasPrefix
  rw [String.data_append, List.isPrefixOf_iff_prefix]
  exact List.prefix_append _ _

theorem TrimPrefix_append (pre t : String) : TrimPrefix (pre ++ t) pre = t := by
  unfold TrimPrefix
  rw [if_pos (HasPrefix_append pre t), String.data_append, List.drop_left]

theorem bearer_append_ne_empty (t : String) : BearerPrefix ++ t ≠ "" := by
  intro h
  have := congrArg String.length h
  simp only [BearerPrefix, String.length_append] at this
  have h7 : "Bearer ".length = 7 := by decide
  have h0 : "".length = 0 := by decide
  omega

theorem Context.Get_Set_same (c : Context) (key : String) (v : Value) :
    (c.Set key v).Get key = some v := by
  simp [Context.Get, Context.Set, List.lookup]

theorem lookup_filter_ne (l : List (String × Value)) (key k : String) (h : k ≠ key) :
    (l.filter (fun kv => decide (kv.1 ≠ key))).lookup k = l.lookup k := by
  induction l with
  | nil => rfl
  | cons kv rest ih =>
      obtain ⟨a, b⟩ := kv
      by_cases hak : a = key
      · subst hak
        have hka : (k == a) = false := by simpa using h
        simpa [List.filter, List.lookup, hka] using ih
      · by_cases hk : k = a
        · subst hk
          simp [List.filter, List.lookup, hak]
        · have hka : (k == a) = false := by simpa using hk
          simpa [List.filter, List.lookup, hak, hka] using ih

theorem Context.Get_Set_other (c : Context) (key k : String) (v : Value) (h : k ≠ key) :
    (c.Set key v).Get k = c.Get k := by
  have hka : (k == key) = false := by simpa using h
  simp only [Context.Get, Context.Set, List.lookup, hka]
  exact lookup_filter_ne c.Keys key k h

/-- C7: for every Authorization header value that does not start with
`"Bearer "`, the authentication gate writes one 401 response and aborts,
without calling `ValidateToken` or the next handler (the call log is
unchanged) and without touching the context keys; the message is
"Authorization header is required" exactly when the header value is empty
(missing) and "Invalid authorization header format" otherwise. -/
theorem AuthMiddleware_rejects_without_bearer (jwtService : JWTService)
    (rest : Context → Context) (c : Context)
    (h : HasPrefix (c.GetHeader AuthorizationHeader) BearerPrefix = false) :
    ∃ msg : String,
      AuthMiddleware jwtService rest c =
        { c with Responses := c.Responses ++ [responseError 401 msg none], Aborted := true } ∧
      (msg = "Authorization header is required" ↔ c.GetHeader AuthorizationHeader = "") ∧
      (c.GetHeader AuthorizationHeader ≠ "" → msg = "Invalid authorization header format") ∧
      (AuthMiddleware jwtService rest c).Log = c.Log ∧
      (AuthMiddleware jwtService rest c).Keys = c.Keys ∧
      (AuthMiddleware jwtService rest c).Get UserIDKey = c.Get UserIDKey ∧
      (AuthMiddleware jwtService rest c).Get UserEmailKey = c.Get UserEmailKey ∧
      (AuthMiddleware jwtService rest c).Get UserRoleKey = c.Get UserRoleKey ∧
      (AuthMiddleware jwtService rest c).Aborted = true := by
  by_cases he : c.GetHeader AuthorizationHeader = ""
  · have hm : AuthMiddleware jwtService rest c =
        { c with Responses := c.Responses ++
            [responseError 401 "Authorization header is required" none], Aborted := true } := by
      unfold AuthMiddleware
      simp only [he, if_true]
      rfl
    refine ⟨"Authorization header is required", hm, ?_, ?_, ?_⟩
    · exact ⟨fun _ => he, fun _ => rfl⟩
    · intro hne; exact absurd he hne
    · rw [hm]; exact ⟨rfl, rfl, rfl, rfl, rfl, rfl⟩
  · have hm : AuthMiddleware jwtService rest c =
        { c with Responses := c.Responses ++
            [responseError 401 "Invalid authorization header format" none], Aborted := true } := by
      unfold AuthMiddleware
      simp only [he, if_false, h, Bool.not_false, if_true]
      rfl
    refine ⟨"Invalid authorization header format", hm, ?_, ?_, ?_⟩
    · constructor
      · intro hmsg; exact absurd hmsg (by decide)
      · intro h0; exact absurd h0 he
    · intro _; rfl
    · rw [hm]; exact ⟨rfl, rfl, rfl, rfl, rfl, rfl⟩

theorem AuthMiddleware_rejects_without_bearer_witness :
    HasPrefix ((sampleContext "Basic abc").GetHeader AuthorizationHeader) BearerPrefix = false ∧
    AuthMiddleware sampleJWT sampleHandler (sampleContext "Basic abc") =
      { sampleContext "Basic abc" with
        Responses := [responseError 401 "Invalid authorization header format" none],
        Aborted := true } ∧
    AuthMiddleware sampleJWT sampleHandler (sampleContext "") =
      { sampleContext "" with
        Responses := [responseError 401 "Authorization header is required" none],
        Aborted := true } ∧
    ∃ msg : String,
      AuthMiddleware sampleJWT sampleHandler (sampleContext "Basic abc") =
        { sampleContext "Basic abc" with
          Responses := (sampleContext "Basic abc").Responses ++ [responseError 401 msg none],
          Aborted := true } ∧
      (msg = "Authorization header is required" ↔
        (sampleContext "Basic abc").GetHeader AuthorizationHeader = "") ∧
      ((sampleContext "Basic abc").GetHeader AuthorizationHeader ≠ "" →
        msg = "Invalid authorization header format") ∧
      (AuthMiddleware sampleJWT sampleHandler (sampleContext "Basic abc")).Log =
        (sampleContext "Basic abc").Log ∧
      (AuthMiddleware sampleJWT sampleHandler (sampleContext "Basic abc")).Keys =
        (sampleContext "Basic abc").Keys ∧
      (AuthMiddleware sampleJWT sampleHandler (sampleContext "Basic abc")).Get UserIDKey =
        (sampleContext "Basic abc").Get UserIDKey ∧
      (AuthMiddleware sampleJWT sampleHandler (sampleContext "Basic abc")).Get UserEmailKey =
        (sampleContext "Basic abc").Get UserEmailKey ∧
      (AuthMiddleware sampleJWT sampleHandler (sampleContext "Basic abc")).Get UserRoleKey =
        (sampleContext "Basic abc").Get UserRoleKey ∧
      (AuthMiddleware sampleJWT sampleHandler (sampleContext "Basic abc")).Aborted = true :=
  ⟨by decide, by decide, by decide,
    AuthMiddleware_rejects_without_bearer sampleJWT sampleHandler (sampleContext "Basic abc")
      (by decide)⟩

/-- C8: for every header `"Bearer " ++ token` and any two failures of
`ValidateToken` on that token (two services failing with errors `e1`, `e2` of
any kind or text), the authentication gate leaves the identical context: one
401 response with message "Invalid or expired token" and no error detail, the
request aborted, no context key set; nothing in it depends on the error. -/
theorem AuthMiddleware_validation_failure_uniform (jwt1 jwt2 : JWTService)
    (rest1 rest2 : Context → Context) (c : Context) (token : String) (e1 e2 : Error)
    (hh : c.GetHeader AuthorizationHeader = BearerPrefix ++ token)
    (h1 : jwt1.ValidateToken token = .error e1) (h2 : jwt2.ValidateToken token = .error e2) :
    AuthMiddleware jwt1 rest1 c = AuthMiddleware jwt2 rest2 c ∧
    (AuthMiddleware jwt1 rest1 c).Responses =
      c.Responses ++ [{ Status := 401
                        Body := { Success := false, Message := "Invalid or expired token",
                                  Data := none, Error := none, Meta := none } }] ∧
    (AuthMiddleware jwt1 rest1 c).Aborted = true ∧
    (AuthMiddleware jwt1 rest1 c).Keys = c.Keys ∧
    (AuthMiddleware jwt1 rest1 c).Log = c.Log ++ [Event.validateToken token] := by
  have key : ∀ (jwt : JWTService) (rest : Context → Context) (e : Error),
      jwt.ValidateToken token = .error e →
      AuthMiddleware jwt rest c =
        { c with Responses := c.Responses ++ [responseError 401 "Invalid or expired token" none],
                 Aborted := true, Log := c.Log ++ [Event.validateToken token] } := by
    intro jwt rest e he
    unfold AuthMiddleware
    simp only [hh, bearer_append_ne_empty, if_false, HasPrefix_append, Bool.not_true,
      TrimPrefix_append, he]
    rfl
  rw [key jwt1 rest1 e1 h1, key jwt2 rest2 e2 h2]
  exact ⟨rfl, rfl, rfl, rfl, rfl⟩

theorem AuthMiddleware_validation_failure_uniform_witness :
    (sampleContext "Bearer old-token").GetHeader AuthorizationHeader =
      BearerPrefix ++ "old-token" ∧
    sampleJWT.ValidateToken "old-token" = .error (Error.other "token is expired") ∧
    sampleJWT2.ValidateToken "old-token" = .error (Error.other "signature is invalid") ∧
    (AuthMiddleware sampleJWT sampleHandler (sampleContext "Bearer old-token") =
      AuthMiddleware sampleJWT2 id (sampleContext "Bearer old-token") ∧
    (AuthMiddleware sampleJWT sampleHandler (sampleContext "Bearer old-token")).Responses =
      (sampleContext "Bearer old-token").Responses ++
        [{ Status := 401
           Body := { Success := false, Message := "Invalid or expired token",
                     Data := none, Error := none, Meta := none } }] ∧
    (AuthMiddleware sampleJWT sampleHandler (sampleContext "Bearer old-token")).Aborted = true ∧
    (AuthMiddleware sampleJWT sampleHandler (sampleContext "Bearer old-token")).Keys =
      (sampleContext "Bearer old-token").Keys ∧
    (AuthMiddleware sampleJWT sampleHandler (sampleContext "Bearer old-token")).Log =
      (sampleContext "Bearer old-token").Log ++ [Event.validateToken "old-token"]) :=
  ⟨by decide, by rfl, by rfl,
    AuthMiddleware_validation_failure_uniform sampleJWT sampleJWT2 sampleHandler id
      (sampleContext "Bearer old-token") "old-token" (Error.other "token is expired")
      (Error.other "signature is invalid") (by decide) (by rfl) (by rfl)⟩

theorem AuthMiddleware_ok_eq (jwtService : JWTService) (rest : Context → Context) (c : Context)
    (token : String) (claims : Claims)
    (hh : c.GetHeader AuthorizationHeader = BearerPrefix ++ token)
    (hv : jwtService.ValidateToken token = .ok claims) :
    AuthMiddleware jwtService rest c =
      rest { ((({ c with Log := c.Log ++ [Event.validateToken token] }.Set UserIDKey
                  (Value.uuid claims.UserID)).Set UserEmailKey
                  (Value.string claims.Email)).Set UserRoleKey claims.Role) with
             Log := c.Log ++ [Event.validateToken token] ++ [Event.next] } := by
  unfold AuthMiddleware
  simp only [hh, bearer_append_ne_empty, if_false, HasPrefix_append, Bool.not_true,
    TrimPrefix_append, hv]
  rfl

theorem AuthMiddleware_ok_context (jwtService : JWTService) (c : Context)
    (t : String) (cl : Claims)
    (hh : c.GetHeader AuthorizationHeader = BearerPrefix ++ t)
    (hv : jwtService.ValidateToken t = .ok cl) :
    ∃ c2 : Context,
      (∀ rest : Context → Context, AuthMiddleware jwtService rest c = rest c2) ∧
      c2.Get UserIDKey = some (Value.uuid cl.UserID) ∧
      c2.Get UserEmailKey = some (Value.string cl.Email) ∧
      c2.Get UserRoleKey = some cl.Role ∧
      (∀ k, k ≠ UserIDKey → k ≠ UserEmailKey → k ≠ UserRoleKey → c2.Get k = c.Get k) ∧
      c2.Responses = c.Responses ∧
      c2.Aborted = c.Aborted ∧
      c2.Headers = c.Headers ∧
      c2.Log = c.Log ++ [Event.validateToken t, Event.next] := by
  refine ⟨_, fun rest => AuthMiddleware_ok_eq jwtService rest c t cl hh hv, ?_, ?_, ?_, ?_,
    rfl, rfl, rfl, ?_⟩
  · show Context.Get (Context.Set (Context.Set (Context.Set _ _ _) _ _) _ _) _ = _
    rw [Context.Get_Set_other _ _ _ _ (by decide), Context.Get_Set_other _ _ _ _ (by decide),
      Context.Get_Set_same]
  · show Context.Get (Context.Set (Context.Set (Context.Set _ _ _) _ _) _ _) _ = _
    rw [Context.Get_Set_other _ _ _ _ (by decide), Context.Get_Set_same]
  · show Context.Get (Context.Set (Context.Set (Context.Set _ _ _) _ _) _ _) _ = _
    rw [Context.Get_Set_same]
  · intro k h1 h2 h3
    show Context.Get (Context.Set (Context.Set (Context.Set _ _ _) _ _) _ _) _ = _
    rw [Context.Get_Set_other _ _ _ _ h3, Context.Get_Set_other _ _ _ _ h2,
      Context.Get_Set_other _ _ _ _ h1]
    rfl
  · show c.Log ++ [Event.validateToken t] ++ [Event.next] = _
    simp

/-- C9: for every header `"Bearer " ++ t` on which `ValidateToken t` succeeds
with claims `cl`, the authentication gate calls `ValidateToken` on exactly `t`,
then hands to the next handler a context in which `user_id`, `user_email` and
`user_role` hold `cl.UserID`, `cl.Email` and `cl.Role`, every other key is as
before, no response has been written and the abort flag is untouched. -/
theorem AuthMiddleware_success_sets_identity (jwtService : JWTService) (c : Context)
    (t : String) (cl : Claims)
    (hh : c.GetHeader AuthorizationHeader = BearerPrefix ++ t)
    (hv : jwtService.ValidateToken t = .ok cl) :
    ∃ c2 : Context,
      (∀ rest : Context → Context, AuthMiddleware jwtService rest c = rest c2) ∧
      c2.Get UserIDKey = some (Value.uuid cl.UserID) ∧
      c2.Get UserEmailKey = some (Value.string cl.Email) ∧
      c2.Get UserRoleKey = some cl.Role ∧
      (∀ k, k ≠ UserIDKey → k ≠ UserEmailKey → k ≠ UserRoleKey → c2.Get k = c.Get k) ∧
      c2.Responses = c.Responses ∧
      c2.Aborted = c.Aborted ∧
      c2.Headers = c.Headers ∧
      c2.Log = c.Log ++ [Event.validateToken t, Event.next] :=
  AuthMiddleware_ok_context jwtService c t cl hh hv

theorem AuthMiddleware_success_sets_identity_witness :
    (sampleContext "Bearer user-token").GetHeader AuthorizationHeader =
      BearerPrefix ++ "user-token" ∧
    sampleJWT.ValidateToken "user-token" =
      .ok { UserID := 5, Email := "user@example.com", Role := Value.string "user" } ∧
    (AuthMiddleware sampleJWT id (sampleContext "Bearer user-token")).Keys =
      [("user_role", Value.string "user"), ("user_email", Value.string "user@example.com"),
        ("user_id", Value.uuid 5)] ∧
    ∃ c2 : Context,
      (∀ rest : Context → Context,
        AuthMiddleware sampleJWT rest (sampleContext "Bearer user-token") = rest c2) ∧
      c2.Get UserIDKey = some (Value.uuid 5) ∧
      c2.Get UserEmailKey = some (Value.string "user@example.com") ∧
      c2.Get UserRoleKey = some (Value.string "user") ∧
      (∀ k, k ≠ UserIDKey → k ≠ UserEmailKey → k ≠ UserRoleKey →
        c2.Get k = (sampleContext "Bearer user-token").Get k) ∧
      c2.Responses = (sampleContext "Bearer user-token").Responses ∧
      c2.Aborted = (sampleContext "Bearer user-token").Aborted ∧
      c2.Headers = (sampleContext "Bearer user-token").Headers ∧
      c2.Log = (sampleContext "Bearer user-token").Log ++
        [Event.validateToken "user-token", Event.next] :=
  ⟨by decide, by rfl, by decide,
    AuthMiddleware_success_sets_identity sampleJWT (sampleContext "Bearer user-token")
      "user-token" { UserID := 5, Email := "user@example.com", Role := Value.string "user" }
      (by decide) (by rfl)⟩

theorem AdminMiddleware_missing_role (rest : Context → Context) (c : Context)
    (h : c.Get UserRoleKey = none) :
    AdminMiddleware rest c =
      { c with Responses := c.Responses ++ [responseError 401 "User role not found" none],
               Aborted := true } := by
  unfold AdminMiddleware
  rw [h]
  rfl

theorem AdminMiddleware_other_role (rest : Context → Context) (c : Context) (role : Value)
    (h : c.Get UserRoleKey = some role) (hne : role ≠ Value.string RoleAdmin) :
    AdminMiddleware rest c =
      { c with Responses := c.Responses ++ [responseError 403 "Admin access required" none],
               Aborted := true } := by
  unfold AdminMiddleware
  rw [h]
  simp only [hne, ne_eq, not_false_eq_true, if_true]
  rfl

/-- C10: for every request context, the admin gate rejects without invoking
the next handler whenever the role is not admin: with one 401 response when
`user_role` is absent from the context, and with one 403 response with message
"Admin access required" when a role is present and differs from the string
`admin`; in both cases the request is aborted and the call log is unchanged.
Hence a request whose bearer token validates to a non-admin role gets, from
the authentication gate followed by the admin gate, exactly that 403 response,
and the handler behind the gates is not run. -/
theorem AdminMiddleware_rejects_non_admin (rest : Context → Context) (c : Context) :
    (c.Get UserRoleKey = none →
      AdminMiddleware rest c =
        { c with Responses := c.Responses ++
                   [{ Status := 401
                      Body := { Success := false, Message := "User role not found",
                                Data := none, Error := none, Meta := none } }],
                 Aborted := true }) ∧
    (∀ role, c.Get UserRoleKey = some role → role ≠ Value.string "admin" →
      AdminMiddleware rest c =
        { c with Responses := c.Responses ++
                   [{ Status := 403
                      Body := { Success := false, Message := "Admin access required",
                                Data := none, Error := none, Meta := none } }],
                 Aborted := true }) ∧
    (∀ (jwtService : JWTService) (t : String) (cl : Claims),
      c.GetHeader AuthorizationHeader = BearerPrefix ++ t →
      jwtService.ValidateToken t = .ok cl →
      cl.Role ≠ Value.string "admin" →
        (AuthMiddleware jwtService (AdminMiddleware rest) c).Responses =
          c.Responses ++
            [{ Status := 403
               Body := { Success := false, Message := "Admin access required",
                         Data := none, Error := none, Meta := none } }] ∧
        (AuthMiddleware jwtService (AdminMiddleware rest) c).Aborted = true ∧
        (AuthMiddleware jwtService (AdminMiddleware rest) c).Log =
          c.Log ++ [Event.validateToken t, Event.next]) := by
  refine ⟨AdminMiddleware_missing_role rest c, AdminMiddleware_other_role rest c, ?_⟩
  intro jwtService t cl hh hv hrole
  obtain ⟨c2, hc2, -, -, hr, -, hresp, -, -, hlog⟩ := AuthMiddleware_ok_context jwtService c t cl hh hv
  rw [hc2 (AdminMiddleware rest), AdminMiddleware_other_role rest c2 cl.Role hr hrole]
  exact ⟨by rw [← hresp]; rfl, rfl, hlog⟩

theorem sqlAnd_some (a b : Bool) : sqlAnd (some a) (some b) = some (a && b) := by
  cases a <;> cases b <;> rfl

theorem sqlKeeps_some (b : Bool) : sqlKeeps (some b) = b := by
  cases b <;> rfl

theorem sqlKeeps_sqlAnd_some (x : Option Bool) (b : Bool) :
    sqlKeeps (sqlAnd x (some b)) = (sqlKeeps x && b) := by
  cases x with
  | none => cases b <;> rfl
  | some a => cases a <;> cases b <;> rfl

theorem sqlKeeps_sqlAnd_none (x : Option Bool) : sqlKeeps (sqlAnd x none) = false := by
  cases x with
  | none => rfl
  | some a => cases a <;> rfl

theorem sqlKeeps_homeWinCond (teamID : UUID) (m : Match) :
    sqlKeeps (homeWinCond teamID m) = specHomeWin teamID m := by
  unfold homeWinCond specHomeWin MatchStatusCompleted
  rw [sqlAnd_some, Bool.and_comm (decide (m.HomeTeamID = teamID))]
  cases hh : m.HomeScore with
  | none => simp [sqlGt, sqlKeeps_sqlAnd_none]
  | some x =>
    cases ha : m.AwayScore with
    | none => simp [sqlGt, sqlKeeps_sqlAnd_none]
    | some y =>
        simp only [sqlGt, gt_iff_lt]
        rw [sqlKeeps_sqlAnd_some, sqlKeeps_some]

theorem sqlKeeps_awayWinCond (teamID : UUID) (m : Match) :
    sqlKeeps (awayWinCond teamID m) = specAwayWin teamID m := by
  unfold awayWinCond specAwayWin MatchStatusCompleted
  rw [sqlAnd_some, Bool.and_comm (decide (m.AwayTeamID = teamID))]
  cases hh : m.HomeScore with
  | none => cases ha : m.AwayScore <;> simp [sqlGt, sqlKeeps_sqlAnd_none]
  | some x =>
    cases ha : m.AwayScore with
    | none => simp [sqlGt, sqlKeeps_sqlAnd_none]
    | some y =>
        simp only [sqlGt, gt_iff_lt]
        rw [sqlKeeps_sqlAnd_some, sqlKeeps_some]

theorem GetTeamWinCount_home (db : DB) (teamID : UUID) :
    matchRepositoryImpl.GetTeamWinCount db teamID true =
      (((db.Matches.filter fun m => specHomeWin teamID m && m.DeletedAt.isNone).length : Int),
        none) := by
  unfold matchRepositoryImpl.GetTeamWinCount
  simp only [if_true, notSoftDeleted, sqlKeeps_sqlAnd_some, sqlKeeps_homeWinCond]

theorem GetTeamWinCount_away (db : DB) (teamID : UUID) :
    matchRepositoryImpl.GetTeamWinCount db teamID false =
      (((db.Matches.filter fun m => specAwayWin teamID m && m.DeletedAt.isNone).length : Int),
        none) := by
  unfold matchRepositoryImpl.GetTeamWinCount
  simp only [Bool.false_eq_true, if_false, notSoftDeleted, sqlKeeps_sqlAnd_some,
    sqlKeeps_awayWinCond]

theorem not_home_and_away_win (teamID : UUID) (m : Match) :
    ¬ (specHomeWin teamID m = true ∧ specAwayWin teamID m = true) := by
  unfold specHomeWin specAwayWin
  cases m.HomeScore <;> cases m.AwayScore <;> simp
  intro _ _ h _ _
  omega

theorem summedWinCount_eq (db : DB) (teamID : UUID) :
    summedWinCount db teamID =
      specWinCount (db.Matches.filter fun m => m.DeletedAt.isNone) teamID := by
  unfold summedWinCount specWinCount
  rw [GetTeamWinCount_home, GetTeamWinCount_away, List.filter_filter, List.filter_filter]

theorem summedWinCount_cons (db : DB) (teamID : UUID) (m : Match) :
    summedWinCount { db with Matches := m :: db.Matches } teamID =
      summedWinCount db teamID +
        (if m.DeletedAt.isNone = true ∧
            (specHomeWin teamID m = true ∨ specAwayWin teamID m = true) then 1 else 0) := by
  have hx := not_home_and_away_win teamID m
  unfold summedWinCount
  simp only [GetTeamWinCount_home, GetTeamWinCount_away, List.filter_cons]
  cases hd : m.DeletedAt.isNone <;> cases hh : specHomeWin teamID m <;>
    cases ha : specAwayWin teamID m <;> simp [hh, ha] at hx ⊢
  all_goals omega

/-- C4 (the claim as stated fails): a soft-deleted completed match won 2-1 at
home by team 1 is a stored match that qualifies in the claim's count, which is
1, while the two `GetTeamWinCount` answers sum to 0. -/
theorem summedWinCount_skips_soft_deleted :
    summedWinCount softDeletedWinDB 1 = 0 ∧ specWinCount softDeletedWinDB.Matches 1 = 1 ∧
    summedWinCount softDeletedWinDB 1 ≠ specWinCount softDeletedWinDB.Matches 1 := by
  decide

/-- C4 (amended): for every team and every set of stored matches, the sum of
`GetTeamWinCount(team, true)` and `GetTeamWinCount(team, false)` (both return
no error) equals the number of matches that are not soft-deleted, have status
completed and in which the team is the home side with the home score strictly
greater, plus the number of such matches in which it is the away side with the
away score strictly greater; adding one stored match raises the sum by exactly
1 when that match is not soft-deleted and is such a home or away win, and by 0
otherwise (soft-deleted, not completed, a draw or loss, or an absent score). -/
theorem summedWinCount_counts_live_wins (db : DB) (teamID : UUID) :
    summedWinCount db teamID =
      specWinCount (db.Matches.filter fun m => m.DeletedAt.isNone) teamID ∧
    (matchRepositoryImpl.GetTeamWinCount db teamID true).2 = none ∧
    (matchRepositoryImpl.GetTeamWinCount db teamID false).2 = none ∧
    (∀ m : Match,
      summedWinCount { db with Matches := m :: db.Matches } teamID =
        summedWinCount db teamID +
          (if m.DeletedAt.isNone = true ∧
              (specHomeWin teamID m = true ∨ specAwayWin teamID m = true) then 1 else 0)) :=
  ⟨summedWinCount_eq db teamID, rfl, rfl, summedWinCount_cons db teamID⟩

theorem mem_distinct {α : Type} [DecidableEq α] (l : List α) (a : α) :
    a ∈ distinct l ↔ a ∈ l := by
  induction l with
  | nil => simp [distinct]
  | cons x xs ih =>
      by_cases h : a = x
      · subst h; simp [distinct]
      · simp [distinct, List.mem_filter, ih, h]

theorem filter_eq_singleton_of_nodup {α β : Type} (f : α → β) (p : α → Bool) :
    ∀ (l : List α) (a : α), (l.map f).Nodup → a ∈ l → p a = true →
      (∀ b, b ∈ l → p b = true → f b = f a) → l.filter p = [a]
  | [], a, _, ha, _, _ => by cases ha
  | x :: xs, a, hnd, ha, hpa, huniq => by
      rw [List.map_cons, List.nodup_cons] at hnd
      obtain ⟨hx, hxs⟩ := hnd
      rcases List.mem_cons.mp ha with rfl | hmem
      · have hnone : xs.filter p = [] := by
          rw [List.filter_eq_nil_iff]
          intro b hb hpb
          apply hx
          rw [← huniq b (List.mem_cons_of_mem _ hb) hpb]
          exact List.mem_map_of_mem f hb
        rw [List.filter_cons, if_pos hpa, hnone]
      · have hpx : ¬ p x = true := by
          intro hpx
          apply hx
          rw [huniq x (List.mem_cons_self _ _) hpx]
          exact List.mem_map_of_mem f hmem
        rw [List.filter_cons, if_neg hpx]
        exact filter_eq_singleton_of_nodup f p xs a hxs hmem hpa
          (fun b hb hpb => huniq b (List.mem_cons_of_mem _ hb) hpb)

theorem mem_scoringRows (db : DB) (r : JoinedRow) :
    r ∈ scoringRows db ↔
      r.goal ∈ db.Goals ∧ r.player ∈ db.Players ∧ r.player.ID = r.goal.PlayerID ∧
      r.player.DeletedAt = none ∧ r.team ∈ db.Teams ∧ r.team.ID = r.player.TeamID ∧
      r.team.DeletedAt = none ∧ r.goal.DeletedAt = none ∧ r.goal.IsOwnGoal = false := by
  unfold scoringRows joinGoalsPlayersTeams
  simp only [List.mem_filter, List.mem_flatMap, List.mem_map, Bool.and_eq_true, decide_eq_true_eq,
    Option.isNone_iff_eq_none, beq_iff_eq]
  constructor
  · rintro ⟨⟨g, hg, p, ⟨hp, hpid, hpd⟩, t, ⟨ht, htid, htd⟩, rfl⟩, hgd, hown⟩
    exact ⟨hg, hp, hpid, hpd, ht, htid, htd, hgd, hown⟩
  · rintro ⟨hg, hp, hpid, hpd, ht, htid, htd, hgd, hown⟩
    exact ⟨⟨r.goal, hg, r.player, ⟨hp, hpid, hpd⟩, r.team, ⟨ht, htid, htd⟩, rfl⟩, hgd, hown⟩

theorem group_rows_length (players : List Player) (teams : List Team) (p0 : Player) (t0 : Team)
    (hnp : (players.map Player.ID).Nodup) (hnt : (teams.map Team.ID).Nodup)
    (hp0 : p0 ∈ players) (hp0live : p0.DeletedAt = none)
    (ht0 : t0 ∈ teams) (ht0id : t0.ID = p0.TeamID) (ht0live : t0.DeletedAt = none) :
    ∀ gs : List Goal,
      (((gs.flatMap fun g =>
          (players.filter fun p => decide (p.ID = g.PlayerID) && p.DeletedAt.isNone).flatMap
            fun p =>
              (teams.filter fun t => decide (t.ID = p.TeamID) && t.DeletedAt.isNone).map fun t =>
                ({ goal := g, player := p, team := t } : JoinedRow)).filter
          fun r => r.goal.DeletedAt.isNone && r.goal.IsOwnGoal == false).filter
        fun r => decide (r.key =
          { PlayerID := p0.ID, PlayerName := p0.Name, TeamID := p0.TeamID,
            TeamName := t0.Name })).length =
      (gs.filter (specCountedGoal p0.ID)).length
  | [] => rfl
  | g :: gs => by
      have ih := group_rows_length players teams p0 t0 hnp hnt hp0 hp0live ht0 ht0id ht0live gs
      rw [List.flatMap_cons, List.filter_append, List.filter_append, List.length_append, ih,
        List.filter_cons]
      by_cases hg : g.PlayerID = p0.ID
      · have hps : (players.filter fun p => decide (p.ID = g.PlayerID) && p.DeletedAt.isNone) =
            [p0] := by
          apply filter_eq_singleton_of_nodup Player.ID _ players p0 hnp hp0
          · simp [hg, hp0live]
          · intro b _ hb
            simp only [Bool.and_eq_true, decide_eq_true_eq] at hb
            rw [hb.1, hg]
        have hts : (teams.filter fun t => decide (t.ID = p0.TeamID) && t.DeletedAt.isNone) =
            [t0] := by
          apply filter_eq_singleton_of_nodup Team.ID _ teams t0 hnt ht0
          · simp [ht0id, ht0live]
          · intro b _ hb
            simp only [Bool.and_eq_true, decide_eq_true_eq] at hb
            rw [hb.1, ht0id]
        rw [hps]
        simp only [List.flatMap_cons, List.flatMap_nil, List.append_nil, hts, List.map_cons,
          List.map_nil]
        by_cases hc : specCountedGoal p0.ID g = true
        · have hc2 := hc
          simp only [specCountedGoal, Bool.and_eq_true, decide_eq_true_eq,
            Bool.not_eq_true', Option.isNone_iff_eq_none] at hc2
          rw [if_pos hc]
          simp [List.filter_cons, JoinedRow.key, hc2.1.2, hc2.2, hg]
          omega
        · have hc2 := hc
          simp only [specCountedGoal, hg, decide_True, Bool.true_and] at hc2
          rw [if_neg hc]
          have hcond : ¬ (g.DeletedAt.isNone && g.IsOwnGoal == false) = true := by
            intro hh
            apply hc2
            cases hd : g.DeletedAt.isNone <;> cases ho : g.IsOwnGoal <;> simp [hd, ho] at hh ⊢
          have hf : List.filter
              (fun r : JoinedRow => r.goal.DeletedAt.isNone && r.goal.IsOwnGoal == false)
              [{ goal := g, player := p0, team := t0 }] = [] := by
            rw [List.filter_cons, if_neg hcond]
            rfl
          rw [hf]
          simp
      · have hc : ¬ specCountedGoal p0.ID g = true := by
          simp [specCountedGoal, hg]
        rw [if_neg hc]
        have hnil : ((((players.filter fun p =>
              decide (p.ID = g.PlayerID) && p.DeletedAt.isNone).flatMap fun p =>
                (teams.filter fun t => decide (t.ID = p.TeamID) && t.DeletedAt.isNone).map fun t =>
                  ({ goal := g, player := p, team := t } : JoinedRow)).filter
              fun r => r.goal.DeletedAt.isNone && r.goal.IsOwnGoal == false).filter
            fun r => decide (r.key =
              { PlayerID := p0.ID, PlayerName := p0.Name, TeamID := p0.TeamID,
                TeamName := t0.Name })) = [] := by
          rw [List.filter_eq_nil_iff]
          intro r hr hk
          simp only [List.mem_filter, List.mem_flatMap, List.mem_map] at hr
          obtain ⟨⟨p, _, t, _, rfl⟩, _⟩ := hr
          simp only [JoinedRow.key, decide_eq_true_eq, GroupKey.mk.injEq] at hk
          exact hg hk.1
        rw [hnil]
        simp

theorem nodup_distinct {α : Type} [DecidableEq α] : ∀ l : List α, (distinct l).Nodup
  | [] => List.nodup_nil
  | x :: xs => by
      rw [distinct, List.nodup_cons]
      refine ⟨?_, (nodup_distinct xs).filter _⟩
      simp [List.mem_filter]

theorem mem_groupedScorers (db : DB) (e : TopScorerResult) (he : e ∈ groupedScorers db) :
    ∃ r0, r0 ∈ scoringRows db ∧
      e = { PlayerID := r0.goal.PlayerID, PlayerName := r0.player.Name,
            TeamID := r0.player.TeamID, TeamName := r0.team.Name,
            GoalCount :=
              (((scoringRows db).filter fun r => decide (r.key = r0.key)).length : Int) } := by
  unfold groupedScorers at he
  obtain ⟨k, hk, rfl⟩ := List.mem_map.mp he
  rw [mem_distinct] at hk
  obtain ⟨r0, hr0, rfl⟩ := List.mem_map.mp hk
  exact ⟨r0, hr0, rfl⟩

theorem groupedScorers_count (db : DB) (hnp : (db.Players.map Player.ID).Nodup)
    (hnt : (db.Teams.map Team.ID).Nodup) (e : TopScorerResult) (he : e ∈ groupedScorers db) :
    e.GoalCount = specGoalCount db e.PlayerID := by
  obtain ⟨r0, hr0, rfl⟩ := mem_groupedScorers db e he
  obtain ⟨-, hp, hpid, hpd, ht, htid, htd, -, -⟩ := (mem_scoringRows db r0).mp hr0
  have h := group_rows_length db.Players db.Teams r0.player r0.team hnp hnt hp hpd ht htid htd
    db.Goals
  have hkey : r0.key =
      GroupKey.mk r0.player.ID r0.player.Name r0.player.TeamID r0.team.Name := by
    simp [JoinedRow.key, hpid]
  show (((scoringRows db).filter fun r => decide (r.key = r0.key)).length : Int) =
    specGoalCount db r0.goal.PlayerID
  unfold specGoalCount
  rw [hkey, ← hpid]
  exact congrArg Int.ofNat h

theorem groupedScorers_rows (db : DB) (e : TopScorerResult) (he : e ∈ groupedScorers db) :
    ∃ rows : List JoinedRow, rows.Sublist (scoringRows db) ∧ rows ≠ [] ∧
      e.GoalCount = (rows.length : Int) ∧
      ∀ r ∈ rows, r.goal ∈ db.Goals ∧ r.goal.PlayerID = e.PlayerID ∧
        r.goal.IsOwnGoal = false ∧ r.goal.DeletedAt = none := by
  obtain ⟨r0, hr0, rfl⟩ := mem_groupedScorers db e he
  refine ⟨(scoringRows db).filter fun r => decide (r.key = r0.key), List.filter_sublist _, ?_,
    rfl, ?_⟩
  · intro hnil
    have : r0 ∈ (scoringRows db).filter fun r => decide (r.key = r0.key) := by
      simp [List.mem_filter, hr0]
    rw [hnil] at this
    cases this
  · intro r hr
    rw [List.mem_filter] at hr
    obtain ⟨hmem, hk⟩ := hr
    obtain ⟨hg, -, -, -, -, -, -, hgd, hown⟩ := (mem_scoringRows db r).mp hmem
    have hk2 : r.key = r0.key := by simpa using hk
    exact ⟨hg, congrArg GroupKey.PlayerID hk2, hown, hgd⟩

theorem groupedScorers_players_nodup (db : DB) (hnp : (db.Players.map Player.ID).Nodup)
    (hnt : (db.Teams.map Team.ID).Nodup) :
    ((groupedScorers db).map TopScorerResult.PlayerID).Nodup := by
  unfold groupedScorers
  rw [List.map_map]
  apply List.Nodup.map_on _ (nodup_distinct _)
  intro k1 hk1 k2 hk2 heq
  rw [mem_distinct] at hk1 hk2
  obtain ⟨r1, hr1, rfl⟩ := List.mem_map.mp hk1
  obtain ⟨r2, hr2, rfl⟩ := List.mem_map.mp hk2
  obtain ⟨-, hp1, hpid1, -, ht1, htid1, -, -, -⟩ := (mem_scoringRows db r1).mp hr1
  obtain ⟨-, hp2, hpid2, -, ht2, htid2, -, -, -⟩ := (mem_scoringRows db r2).mp hr2
  have hpid : r1.goal.PlayerID = r2.goal.PlayerID := heq
  have hpl : r1.player = r2.player :=
    List.inj_on_of_nodup_map hnp hp1 hp2 (by rw [hpid1, hpid2, hpid])
  have htm : r1.team = r2.team :=
    List.inj_on_of_nodup_map hnt ht1 ht2 (by rw [htid1, htid2, hpl])
  simp [JoinedRow.key, hpid, hpl, htm]

theorem sqlLimit_of_nonneg {α : Type} (limit : Int) (rows : List α) (h : 0 ≤ limit) :
    sqlLimit limit rows = rows.take limit.toNat := by
  unfold sqlLimit
  rw [if_pos h]

theorem AdminMiddleware_admin_role (rest : Context → Context) (c : Context)
    (h : c.Get UserRoleKey = some (Value.string RoleAdmin)) :
    AdminMiddleware rest c = rest { c with Log := c.Log ++ [Event.next] } := by
  unfold AdminMiddleware
  rw [h]
  simp only [ne_eq, not_true_eq_false, if_false]
  rfl

/-- A role boxed with the entity package's named string type never equals a
`string`: the admin gate answers 403 whatever the role's content. -/
theorem AdminMiddleware_rejects_named_role_type (rest : Context → Context) (c : Context)
    (s : String) (h : c.Get UserRoleKey = some (Value.userRole s)) :
    AdminMiddleware rest c =
      { c with Responses := c.Responses ++ [responseError 403 "Admin access required" none],
               Aborted := true } :=
  AdminMiddleware_other_role rest c (Value.userRole s) h (by simp)

/-- When the validated claims carry the role boxed with the entity package's
named string type, the authentication gate followed by the admin gate answers
403 "Admin access required", also for the role `admin`, and the handler behind
them is not run. -/
theorem named_role_token_rejected_by_admin_gate (jwtService : JWTService) (c : Context)
    (t : String) (cl : Claims) (s : String) (rest : Context → Context)
    (hh : c.GetHeader AuthorizationHeader = BearerPrefix ++ t)
    (hv : jwtService.ValidateToken t = .ok cl) (hr : cl.Role = Value.userRole s) :
    (AuthMiddleware jwtService (AdminMiddleware rest) c).Responses =
      c.Responses ++ [responseError 403 "Admin access required" none] ∧
    (AuthMiddleware jwtService (AdminMiddleware rest) c).Aborted = true ∧
    (AuthMiddleware jwtService (AdminMiddleware rest) c).Log =
      c.Log ++ [Event.validateToken t, Event.next] := by
  obtain ⟨c1, hc1, -, -, hrole, -, hresp, -, -, hlog⟩ :=
    AuthMiddleware_ok_context jwtService c t cl hh hv
  rw [hr] at hrole
  rw [hc1 (AdminMiddleware rest), AdminMiddleware_rejects_named_role_type rest c1 s hrole]
  exact ⟨by rw [← hresp], rfl, hlog⟩

/-- When the validated claims carry the role boxed as the Go string `admin`,
the authentication gate followed by the admin gate runs the handler behind
them on a context to which neither gate has added a response; both gates
called `c.Next`. Whether the claims of the security package box the role as a
`string` is not visible in the available sources. -/
theorem admin_token_passes_both_gates (jwtService : JWTService) (c : Context) (t : String)
    (cl : Claims) (hh : c.GetHeader AuthorizationHeader = BearerPrefix ++ t)
    (hv : jwtService.ValidateToken t = .ok cl) (hr : cl.Role = Value.string RoleAdmin) :
    ∃ c2 : Context,
      (∀ rest : Context → Context,
        AuthMiddleware jwtService (AdminMiddleware rest) c = rest c2) ∧
      c2.Responses = c.Responses ∧
      c2.Aborted = c.Aborted ∧
      c2.Get UserRoleKey = some (Value.string "admin") ∧
      c2.Get UserIDKey = some (Value.uuid cl.UserID) ∧
      c2.Get UserEmailKey = some (Value.string cl.Email) ∧
      c2.Log = c.Log ++ [Event.validateToken t, Event.next, Event.next] := by
  obtain ⟨c1, hc1, hid, hem, hrole, -, hresp, hab, -, hlog⟩ :=
    AuthMiddleware_ok_context jwtService c t cl hh hv
  rw [hr] at hrole
  refine ⟨{ c1 with Log := c1.Log ++ [Event.next] }, ?_, hresp, hab, hrole, hid, hem, ?_⟩
  · intro rest
    rw [hc1 (AdminMiddleware rest), AdminMiddleware_admin_role rest c1 hrole]
  · show c1.Log ++ [Event.next] = _
    rw [hlog]
    simp

theorem admin_token_passes_both_gates_witness :
    (sampleContext "Bearer admin-token").GetHeader AuthorizationHeader =
      BearerPrefix ++ "admin-token" ∧
    sampleJWT.ValidateToken "admin-token" =
      .ok { UserID := 6, Email := "admin@example.com", Role := Value.string "admin" } ∧
    (AuthMiddleware sampleJWT (AdminMiddleware sampleHandler)
        (sampleContext "Bearer admin-token")).Responses =
      [responseSuccess 200 "ok" (Payload.topScorers [])] ∧
    ∃ c2 : Context,
      (∀ rest : Context → Context,
        AuthMiddleware sampleJWT (AdminMiddleware rest) (sampleContext "Bearer admin-token") =
          rest c2) ∧
      c2.Responses = (sampleContext "Bearer admin-token").Responses ∧
      c2.Aborted = (sampleContext "Bearer admin-token").Aborted ∧
      c2.Get UserRoleKey = some (Value.string "admin") ∧
      c2.Get UserIDKey = some (Value.uuid 6) ∧
      c2.Get UserEmailKey = some (Value.string "admin@example.com") ∧
      c2.Log = (sampleContext "Bearer admin-token").Log ++
        [Event.validateToken "admin-token", Event.next, Event.next] :=
  ⟨by decide, by rfl, by decide,
    admin_token_passes_both_gates sampleJWT (sampleContext "Bearer admin-token") "admin-token"
      { UserID := 6, Email := "admin@example.com", Role := Value.string "admin" }
      (by decide) (by rfl) (by rfl)⟩

theorem GetMatchReport_lookup_error (uc : reportUseCaseImpl) (matchID : UUID) (e : Error)
    (h : uc.matchRepo.FindByIDWithDetails matchID = .error e) :
    uc.GetMatchReport matchID =
      if errorsIs e Error.ErrRecordNotFound then .error Error.ErrMatchNotFound else .error e := by
  unfold reportUseCaseImpl.GetMatchReport
  rw [h]

theorem GetMatchReport_after_lookup (uc : reportUseCaseImpl) (matchID : UUID) (m : Match)
    (h : uc.matchRepo.FindByIDWithDetails matchID = .ok m) :
    (∀ e, firstError (uc.queryErrors m) = some e → uc.GetMatchReport matchID = .error e) ∧
    (firstError (uc.queryErrors m) = none → ∃ r, uc.GetMatchReport matchID = .ok r) := by
  unfold reportUseCaseImpl.GetMatchReport reportUseCaseImpl.queryErrors
  rw [h]
  simp only
  rcases uc.matchRepo.GetTeamWinCount m.HomeTeamID true with ⟨a1, _ | e1⟩ <;>
  rcases uc.matchRepo.GetTeamWinCount m.HomeTeamID false with ⟨a2, _ | e2⟩ <;>
  rcases uc.matchRepo.GetTeamWinCount m.AwayTeamID false with ⟨a3, _ | e3⟩ <;>
  rcases uc.matchRepo.GetTeamWinCount m.AwayTeamID true with ⟨a4, _ | e4⟩ <;>
  rcases uc.goalRepo.GetTopScorers 1 with e5 | ts <;>
  simp [firstError]

/-- C12: `GetMatchReport` returns `ErrMatchNotFound` when the match lookup
fails with the store's record-not-found error (`errors.Is`); when the lookup
fails with any other error `e`, or the lookup succeeds and the first failing
one of the four win-count queries and the top-scorer query fails with `e`, it
returns that same `e`; it returns a report exactly when the lookup and all
five queries succeed. Unless a repository call itself fails with the use
case's own `ErrMatchNotFound`, the result is `ErrMatchNotFound` exactly when
the lookup fails with record-not-found. -/
theorem GetMatchReport_error_paths (uc : reportUseCaseImpl) (matchID : UUID) :
    (∀ e, uc.matchRepo.FindByIDWithDetails matchID = .error e →
      errorsIs e Error.ErrRecordNotFound = true →
        uc.GetMatchReport matchID = .error Error.ErrMatchNotFound) ∧
    (∀ e, uc.matchRepo.FindByIDWithDetails matchID = .error e →
      errorsIs e Error.ErrRecordNotFound = false →
        uc.GetMatchReport matchID = .error e) ∧
    (∀ m e, uc.matchRepo.FindByIDWithDetails matchID = .ok m →
      firstError (uc.queryErrors m) = some e → uc.GetMatchReport matchID = .error e) ∧
    ((∃ r, uc.GetMatchReport matchID = .ok r) ↔
      ∃ m, uc.matchRepo.FindByIDWithDetails matchID = .ok m ∧
        ∀ q ∈ uc.queryErrors m, q = none) ∧
    ((∀ e, uc.matchRepo.FindByIDWithDetails matchID = .error e → e ≠ Error.ErrMatchNotFound) →
      (∀ m, uc.matchRepo.FindByIDWithDetails matchID = .ok m →
        firstError (uc.queryErrors m) ≠ some Error.ErrMatchNotFound) →
      (uc.GetMatchReport matchID = .error Error.ErrMatchNotFound ↔
        ∃ e, uc.matchRepo.FindByIDWithDetails matchID = .error e ∧
          errorsIs e Error.ErrRecordNotFound = true)) := by
  have hnone : ∀ l : List (Option Error), firstError l = none ↔ ∀ q ∈ l, q = none := by
    intro l
    induction l with
    | nil => simp [firstError]
    | cons q rest ih => cases q <;> simp [firstError, ih]
  refine ⟨?_, ?_, ?_, ?_, ?_⟩
  · intro e h he
    rw [GetMatchReport_lookup_error uc matchID e h, if_pos he]
  · intro e h he
    rw [GetMatchReport_lookup_error uc matchID e h, if_neg (by simp [he])]
  · intro m e h hf
    exact (GetMatchReport_after_lookup uc matchID m h).1 e hf
  · constructor
    · rintro ⟨r, hr⟩
      cases hl : uc.matchRepo.FindByIDWithDetails matchID with
      | error e =>
          rw [GetMatchReport_lookup_error uc matchID e hl] at hr
          split at hr <;> cases hr
      | ok m =>
          refine ⟨m, rfl, (hnone _).mp ?_⟩
          cases hf : firstError (uc.queryErrors m) with
          | none => rfl
          | some e =>
              rw [(GetMatchReport_after_lookup uc matchID m hl).1 e hf] at hr
              cases hr
    · rintro ⟨m, hl, hall⟩
      exact (GetMatchReport_after_lookup uc matchID m hl).2 ((hnone _).mpr hall)
  · intro hlook hquery
    constructor
    · intro hres
      cases hl : uc.matchRepo.FindByIDWithDetails matchID with
      | error e =>
          refine ⟨e, rfl, ?_⟩
          rw [GetMatchReport_lookup_error uc matchID e hl] at hres
          by_cases he : errorsIs e Error.ErrRecordNotFound = true
          · exact he
          · rw [if_neg he] at hres
            cases hres
            exact absurd rfl (hlook _ hl)
      | ok m =>
          exfalso
          cases hf : firstError (uc.queryErrors m) with
          | none =>
              obtain ⟨r, hr⟩ := (GetMatchReport_after_lookup uc matchID m hl).2 hf
              rw [hr] at hres
              cases hres
          | some e =>
              rw [(GetMatchReport_after_lookup uc matchID m hl).1 e hf] at hres
              cases hres
              exact hquery m hl hf
    · rintro ⟨e, hl, he⟩
      rw [GetMatchReport_lookup_error uc matchID e hl, if_pos he]

theorem attachTopScorer_length (reports : List MatchReport) (ts : List TopScorerResult) :
    (attachTopScorer reports ts).length = reports.length := by
  unfold attachTopScorer
  split
  · cases reports <;> rfl
  · rfl

theorem GetAllMatchReports_of_completed (uc : reportUseCaseImpl) (page limit : Int)
    (ms : List Match) (total : Int)
    (h : uc.matchRepo.GetCompletedMatches page limit = .ok (ms, total)) :
    uc.GetAllMatchReports page limit =
      .ok ((match uc.goalRepo.GetTopScorers 1 with
            | .ok topScorers => attachTopScorer (ms.map uc.buildListReport) topScorers
            | .error _ => ms.map uc.buildListReport), total) := by
  unfold reportUseCaseImpl.GetAllMatchReports
  rw [h]

/-- C13 (the claim as stated fails): with a top-scorer query that fails with
"connection refused", `GetAllMatchReports` still returns a successful page of
three reports instead of that error. -/
theorem GetAllMatchReports_swallows_scorer_error :
    failingScorerUseCase.goalRepo.GetTopScorers 1 = .error (Error.other "connection refused") ∧
    failingScorerUseCase.GetAllMatchReports 1 10 ≠ .error (Error.other "connection refused") ∧
    ∃ reports, failingScorerUseCase.GetAllMatchReports 1 10 = .ok (reports, 3) ∧
      reports.length = 3 :=
  ⟨rfl, (by intro h; cases h), _, rfl, rfl⟩

/-- C13 (amended): whenever the completed-matches query fails with an error
`e`, `GetAllMatchReports` returns that same `e`; and when the completed-matches
query and the win-count queries of the page succeed while the top-scorer query
fails, it drops that error and returns the page of reports, one per match,
none of them carrying a top scorer. -/
theorem GetAllMatchReports_error_paths (uc : reportUseCaseImpl) (page limit : Int) :
    (∀ e, uc.matchRepo.GetCompletedMatches page limit = .error e →
      uc.GetAllMatchReports page limit = .error e) ∧
    (∀ ms total e, uc.matchRepo.GetCompletedMatches page limit = .ok (ms, total) →
      (∀ m ∈ ms,
        (uc.matchRepo.GetTeamWinCount m.HomeTeamID true).2 = none ∧
        (uc.matchRepo.GetTeamWinCount m.HomeTeamID false).2 = none ∧
        (uc.matchRepo.GetTeamWinCount m.AwayTeamID false).2 = none ∧
        (uc.matchRepo.GetTeamWinCount m.AwayTeamID true).2 = none) →
      uc.goalRepo.GetTopScorers 1 = .error e →
        ∃ reports, uc.GetAllMatchReports page limit = .ok (reports, total) ∧
          reports.length = ms.length ∧ ∀ r ∈ reports, r.TopScorer = none) := by
  refine ⟨?_, ?_⟩
  · intro e h
    unfold reportUseCaseImpl.GetAllMatchReports
    rw [h]
  · intro ms total e hc _ hs
    refine ⟨ms.map uc.buildListReport, ?_, by simp, ?_⟩
    · rw [GetAllMatchReports_of_completed uc page limit ms total hc, hs]
    · intro r hr
      obtain ⟨m, -, rfl⟩ := List.mem_map.mp hr
      rfl

theorem resolveScore_some (v : Int) : resolveScore (some v) = v := rfl

theorem resolveScore_none : resolveScore none = 0 := rfl

theorem attachTopScorer_getElem? (reports : List MatchReport) (ts : List TopScorerResult)
    (i : Nat) (r : MatchReport) (h : (attachTopScorer reports ts)[i]? = some r) :
    ∃ r0, reports[i]? = some r0 ∧ r.Match = r0.Match ∧ r.HomeScore = r0.HomeScore ∧
      r.AwayScore = r0.AwayScore := by
  unfold attachTopScorer at h
  split at h
  · cases reports with
    | nil => simp at h
    | cons r1 rest =>
        cases i with
        | zero =>
            simp only [List.getElem?_cons_zero, Option.some.injEq] at h
            subst h
            exact ⟨r1, by simp, rfl, rfl, rfl⟩
        | succ j =>
            simp only [List.getElem?_cons_succ] at h
            exact ⟨r, by simpa using h, rfl, rfl, rfl⟩
  · exact ⟨r, h, rfl, rfl, rfl⟩

theorem GetAllMatchReports_ok_inv (uc : reportUseCaseImpl) (page limit : Int)
    (reports : List MatchReport) (total : Int)
    (h : uc.GetAllMatchReports page limit = .ok (reports, total)) :
    ∃ ms, uc.matchRepo.GetCompletedMatches page limit = .ok (ms, total) ∧
      reports.length = ms.length ∧
      ∀ (i : Nat) (r : MatchReport), reports[i]? = some r →
        ∃ m : Match, ms[i]? = some m ∧ r.Match = m ∧ r.HomeScore = resolveScore m.HomeScore ∧
          r.AwayScore = resolveScore m.AwayScore := by
  cases hc : uc.matchRepo.GetCompletedMatches page limit with
  | error e =>
      unfold reportUseCaseImpl.GetAllMatchReports at h
      rw [hc] at h
      cases h
  | ok res =>
      obtain ⟨ms, total2⟩ := res
      rw [GetAllMatchReports_of_completed uc page limit ms total2 hc] at h
      simp only [Except.ok.injEq, Prod.mk.injEq] at h
      obtain ⟨hrep, htot⟩ := h
      subst htot
      have hbase : ∀ (i : Nat) (r0 : MatchReport), (ms.map uc.buildListReport)[i]? = some r0 →
          ∃ m : Match, ms[i]? = some m ∧ r0.Match = m ∧ r0.HomeScore = resolveScore m.HomeScore ∧
            r0.AwayScore = resolveScore m.AwayScore := by
        intro i r0 hr0
        rw [List.getElem?_map] at hr0
        cases hm : ms[i]? with
        | none => rw [hm] at hr0; cases hr0
        | some m =>
            rw [hm] at hr0
            simp only [Option.map_some', Option.some.injEq] at hr0
            subst hr0
            exact ⟨m, rfl, rfl, rfl, rfl⟩
      refine ⟨ms, rfl, ?_, ?_⟩
      · subst hrep
        cases uc.goalRepo.GetTopScorers 1 with
        | error e => simp
        | ok ts => simp [attachTopScorer_length]
      · intro i r hr
        subst hrep
        cases hts : uc.goalRepo.GetTopScorers 1 with
        | error e =>
            rw [hts] at hr
            exact hbase i r hr
        | ok ts =>
            rw [hts] at hr
            obtain ⟨r0, hr0, h1, h2, h3⟩ := attachTopScorer_getElem? _ ts i r hr
            obtain ⟨m, hm, hm1, hm2, hm3⟩ := hbase i r0 hr0
            exact ⟨m, hm, by rw [h1, hm1], by rw [h2, hm2], by rw [h3, hm3]⟩

/-- C14: for every match, the `HomeScore` and `AwayScore` of the report built
by `GetMatchReport`, and of the report built for it by `GetAllMatchReports`
(the i-th report is built from the i-th match of the page), are the resolved
scores: the stored score when it is present and 0 when it is absent,
independently for the home and the away side. -/
theorem report_scores_are_resolved (uc : reportUseCaseImpl) :
    (∀ matchID r, uc.GetMatchReport matchID = .ok r →
      ∃ m, uc.matchRepo.FindByIDWithDetails matchID = .ok m ∧
        (∀ v, m.HomeScore = some v → r.HomeScore = v) ∧ (m.HomeScore = none → r.HomeScore = 0) ∧
        (∀ v, m.AwayScore = some v → r.AwayScore = v) ∧ (m.AwayScore = none → r.AwayScore = 0)) ∧
    (∀ page limit reports total, uc.GetAllMatchReports page limit = .ok (reports, total) →
      ∃ ms, uc.matchRepo.GetCompletedMatches page limit = .ok (ms, total) ∧
        reports.length = ms.length ∧
        ∀ (i : Nat) (r : MatchReport), reports[i]? = some r →
          ∃ m : Match, ms[i]? = some m ∧ r.Match = m ∧
            (∀ v, m.HomeScore = some v → r.HomeScore = v) ∧
            (m.HomeScore = none → r.HomeScore = 0) ∧
            (∀ v, m.AwayScore = some v → r.AwayScore = v) ∧
            (m.AwayScore = none → r.AwayScore = 0)) := by
  have hres : ∀ (s : Option Int) (x : Int), x = resolveScore s →
      (∀ v, s = some v → x = v) ∧ (s = none → x = 0) := by
    intro s x hx
    subst hx
    exact ⟨fun v hv => by rw [hv]; rfl, fun hn => by rw [hn]; rfl⟩
  refine ⟨?_, ?_⟩
  · intro matchID r h
    obtain ⟨m, ts, hf, -, -, -, -, -, hr⟩ := GetMatchReport_ok_inv uc matchID r h
    subst hr
    exact ⟨m, hf, (hres m.HomeScore _ rfl).1, (hres m.HomeScore _ rfl).2,
      (hres m.AwayScore _ rfl).1, (hres m.AwayScore _ rfl).2⟩
  · intro page limit reports total h
    obtain ⟨ms, hc, hlen, hall⟩ := GetAllMatchReports_ok_inv uc page limit reports total h
    refine ⟨ms, hc, hlen, ?_⟩
    intro i r hr
    obtain ⟨m, hm, hmatch, hh, ha⟩ := hall i r hr
    exact ⟨m, hm, hmatch, (hres m.HomeScore _ hh).1, (hres m.HomeScore _ hh).2,
      (hres m.AwayScore _ ha).1, (hres m.AwayScore _ ha).2⟩

/-- C15 (the code at the failing input): for a match whose goal of minute 80
was stored before its goal of minute 10, the report of `GetMatchReport` lists
the goals in stored order, minutes 80 then 10, which is not chronological. -/
theorem GetMatchReport_goals_in_stored_order :
    ∃ r, (databaseUseCase id sampleMethods lateEntryDB).GetMatchReport 7 = .ok r ∧
      r.Goals.map Goal.Minute = [80, 10] ∧
      ¬ (r.Goals.map Goal.Minute).Pairwise (fun a b => a ≤ b) :=
  ⟨_, rfl, rfl, by decide⟩

/-- C19 (the code at the failing input): for page 9223372036854775807 and
limit 10, which the handler's clamps leave unchanged and pass to the use case,
the offset `(page - 1) * limit` computed by `GetCompletedMatches` wraps to -20,
while the mathematical product is 92233720368547758060; gorm then writes no
`OFFSET` and the query returns the rows of page 1. -/
theorem GetCompletedMatches_offset_wraps :
    inInt64 maxInt64 ∧ specPage maxInt64 = maxInt64 ∧ specLimit 10 = 10 ∧
    (ReportHandler.GetAllMatchReports sampleUseCase.toUseCase maxInt64 10).map
        HandlerRun.useCaseArgs = some [maxInt64, 10] ∧
    matchRepositoryImpl.pageOffset maxInt64 10 = -20 ∧
    (maxInt64 - 1) * 10 = 92233720368547758060 ∧
    matchRepositoryImpl.GetCompletedMatches id sampleLeague maxInt64 10 =
      matchRepositoryImpl.GetCompletedMatches id sampleLeague 1 10 :=
  ⟨by decide, by decide, by decide, rfl, by decide, by decide, rfl⟩

/-- C17 (the code at the failing input): for an authenticated request whose
user lookup reports `ErrUserNotFound`, `GetProfile` responds 404 "User not
found", where the handler's own `@Failure` annotation and the specification
give 401. -/
theorem GetProfile_not_found_is_404 :
    authenticatedContext.Get UserIDKey = some (Value.uuid 5) ∧
    emptyAuthUseCase.GetUserByID 5 = .error Error.ErrUserNotFound ∧
    AuthHandler.GetProfile emptyAuthUseCase authenticatedContext =
      some { Status := 404
             Body := { Success := false, Message := "User not found", Data := none,
                       Error := none, Meta := none } } ∧
    (AuthHandler.GetProfile emptyAuthUseCase authenticatedContext).map Written.Status ≠
      some 401 := by
  refine ⟨by decide, rfl, by decide, by decide⟩

/-- What the `GetProfile` handler answers: 401 when the request carries no
user id in its context, 404 "User not found" when the user lookup reports
`ErrUserNotFound`, and 200 with the user when the lookup finds one. -/
theorem GetProfile_responses (authUseCase : AuthUseCase) (c : Context) :
    (c.Get UserIDKey = none →
      AuthHandler.GetProfile authUseCase c =
        some { Status := 401
               Body := { Success := false, Message := "User not authenticated", Data := none,
                         Error := none, Meta := none } }) ∧
    (∀ userID err, c.Get UserIDKey = some (Value.uuid userID) →
      authUseCase.GetUserByID userID = .error err →
      errorsIs err Error.ErrUserNotFound = true →
        AuthHandler.GetProfile authUseCase c =
          some { Status := 404
                 Body := { Success := false, Message := "User not found", Data := none,
                           Error := none, Meta := none } }) ∧
    (∀ userID user, c.Get UserIDKey = some (Value.uuid userID) →
      authUseCase.GetUserByID userID = .ok user →
        AuthHandler.GetProfile authUseCase c =
          some { Status := 200
                 Body := { Success := true, Message := "Profile retrieved successfully",
                           Data := some (Payload.user user), Error := none, Meta := none } }) := by
  refine ⟨?_, ?_, ?_⟩
  · intro h
    unfold AuthHandler.GetProfile
    rw [h]
    rfl
  · intro userID err h hu he
    unfold AuthHandler.GetProfile
    rw [h]
    simp only [hu, he, if_true]
    rfl
  · intro userID user h hu
    unfold AuthHandler.GetProfile
    rw [h]
    simp only [hu]
    rfl

/-- C18 (the claim as stated fails): the `GetTopScorers` handler answers two
unrecognized use-case errors with different bodies, each carrying the text of
its error in the `error` field. -/
theorem handler_500_body_carries_error_text :
    (ReportHandler.GetTopScorers
        (failingReportUseCase (Error.other "dial tcp 10.0.0.5:5432: connect: connection refused"))
        10).written.Body.Error =
      some "dial tcp 10.0.0.5:5432: connect: connection refused" ∧
    (ReportHandler.GetTopScorers
        (failingReportUseCase (Error.other "pq: password authentication failed for user postgres"))
        10).written.Body.Error =
      some "pq: password authentication failed for user postgres" ∧
    (ReportHandler.GetTopScorers
        (failingReportUseCase (Error.other "dial tcp 10.0.0.5:5432: connect: connection refused"))
        10).written ≠
      (ReportHandler.GetTopScorers
        (failingReportUseCase (Error.other "pq: password authentication failed for user postgres"))
        10).written := by
  refine ⟨by decide, by decide, by decide⟩

/-- C18 (amended): for every handler (Login, Register, GetProfile,
GetMatchReport, GetAllMatchReports, GetTopScorers) and every unrecognized
use-case error `e` (not the sentinel the handler maps, if it maps one), the
handler responds with status 500, a fixed message of its own, and the text of
`e` in the `error` field; so the responses to two such errors are equal when
the errors have the same text, and otherwise differ in that field only. -/
theorem handlers_unrecognized_error_response :
    (∀ (authUseCase : AuthUseCase) (req : LoginRequest) (e : Error),
      authUseCase.Login req.Email req.Password = .error e →
      errorsIs e Error.ErrInvalidCredentials = false →
        AuthHandler.Login authUseCase (.ok req) =
          { Status := 500
            Body := { Success := false, Message := "Failed to login", Data := none,
                      Error := some e.text, Meta := none } }) ∧
    (∀ (authUseCase : AuthUseCase) (req : RegisterRequest) (e : Error),
      authUseCase.Register req.Name req.Email req.Password RoleUser = .error e →
      errorsIs e Error.ErrUserAlreadyExists = false →
        AuthHandler.Register authUseCase (.ok req) =
          { Status := 500
            Body := { Success := false, Message := "Failed to register user", Data := none,
                      Error := some e.text, Meta := none } }) ∧
    (∀ (authUseCase : AuthUseCase) (c : Context) (userID : UUID) (e : Error),
      c.Get UserIDKey = some (Value.uuid userID) →
      authUseCase.GetUserByID userID = .error e →
      errorsIs e Error.ErrUserNotFound = false →
        AuthHandler.GetProfile authUseCase c =
          some { Status := 500
                 Body := { Success := false, Message := "Failed to get user profile",
                           Data := none, Error := some e.text, Meta := none } }) ∧
    (∀ (reportUseCase : ReportUseCase) (matchID : UUID) (e : Error),
      reportUseCase.GetMatchReport matchID = .error e →
      errorsIs e Error.ErrMatchNotFound = false →
        ReportHandler.GetMatchReport reportUseCase (.ok matchID) =
          { Status := 500
            Body := { Success := false, Message := "Failed to get match report", Data := none,
                      Error := some e.text, Meta := none } }) ∧
    (∀ (reportUseCase : ReportUseCase) (page limit : Int) (e : Error),
      reportUseCase.GetAllMatchReports (specPage page) (specLimit limit) = .error e →
        (ReportHandler.GetAllMatchReports reportUseCase page limit).map HandlerRun.written =
          some { Status := 500
                 Body := { Success := false, Message := "Failed to get match reports",
                           Data := none, Error := some e.text, Meta := none } }) ∧
    (∀ (reportUseCase : ReportUseCase) (limit : Int) (e : Error),
      reportUseCase.GetTopScorers (specLimit limit) = .error e →
        (ReportHandler.GetTopScorers reportUseCase limit).written =
          { Status := 500
            Body := { Success := false, Message := "Failed to get top scorers", Data := none,
                      Error := some e.text, Meta := none } }) := by
  refine ⟨?_, ?_, ?_, ?_, ?_, ?_⟩
  · intro authUseCase req e h he
    unfold AuthHandler.Login
    simp only [h, he, Bool.false_eq_true, if_false]
    rfl
  · intro authUseCase req e h he
    unfold AuthHandler.Register
    simp only [h, he, Bool.false_eq_true, if_false]
    rfl
  · intro authUseCase c userID e hc h he
    unfold AuthHandler.GetProfile
    rw [hc]
    simp only [h, he, Bool.false_eq_true, if_false]
    rfl
  · intro reportUseCase matchID e h he
    unfold ReportHandler.GetMatchReport
    simp only [h, he, Bool.false_eq_true, if_false]
    rfl
  · intro reportUseCase page limit e h
    unfold ReportHandler.GetAllMatchReports
    simp only [clamp_page_eq, clamp_limit_eq, h]
    rfl
  · intro reportUseCase limit e h
    unfold ReportHandler.GetTopScorers
    simp only [clamp_limit_eq, h]
    rfl

/-- Where the offset is exact: for `page ≥ 1`, `1 ≤ limit ≤ 100` and
`page ≤ 92233720368547758`, the wrapped product is the mathematical product
and is not negative. -/
theorem pageOffset_exact (page limit : Int) (hp : 1 ≤ page) (hl : 1 ≤ limit)
    (hl2 : limit ≤ 100) (hp2 : page ≤ 92233720368547758) :
    matchRepositoryImpl.pageOffset page limit = (page - 1) * limit ∧
    0 ≤ matchRepositoryImpl.pageOffset page limit := by
  have h0 : 0 ≤ (page - 1) * limit := by nlinarith
  have h1 : (page - 1) * limit ≤ 92233720368547757 * 100 := by nlinarith
  have hs : sub64 page 1 = page - 1 := by
    unfold sub64
    apply wrap64_of_inInt64
    unfold inInt64
    omega
  have hm : matchRepositoryImpl.pageOffset page limit = (page - 1) * limit := by
    unfold matchRepositoryImpl.pageOffset mul64
    rw [hs]
    apply wrap64_of_inInt64
    unfold inInt64
    omega
  rw [hm]
  exact ⟨rfl, h0⟩

theorem admissibleOrder_firstStoredFirst : admissibleOrder firstStoredFirst := fun l =>
  ⟨List.perm_insertionSort goalCountDesc l, List.sorted_insertionSort goalCountDesc l⟩

theorem admissibleOrder_lastStoredFirst : admissibleOrder lastStoredFirst := fun l =>
  ⟨(List.perm_insertionSort goalCountDesc l.reverse).trans (List.reverse_perm l),
    List.sorted_insertionSort goalCountDesc l.reverse⟩

theorem groupedScorers_of_row (db : DB) (r0 : JoinedRow) (hr0 : r0 ∈ scoringRows db) :
    ({ PlayerID := r0.goal.PlayerID, PlayerName := r0.player.Name, TeamID := r0.player.TeamID,
       TeamName := r0.team.Name,
       GoalCount := (((scoringRows db).filter fun r => decide (r.key = r0.key)).length : Int) } :
      TopScorerResult) ∈ groupedScorers db := by
  unfold groupedScorers
  refine List.mem_map.mpr ⟨r0.key, ?_, rfl⟩
  rw [mem_distinct]
  exact List.mem_map_of_mem _ hr0

theorem mem_groupedScorers_iff (db : DB) (hnp : (db.Players.map Player.ID).Nodup)
    (hnt : (db.Teams.map Team.ID).Nodup) (e : TopScorerResult) :
    e ∈ groupedScorers db ↔
      ∃ p ∈ db.Players, ∃ t ∈ db.Teams, p.DeletedAt = none ∧ t.DeletedAt = none ∧
        t.ID = p.TeamID ∧ 1 ≤ specGoalCount db p.ID ∧ e = specScorerEntry db p t := by
  constructor
  · intro he
    have hcount := groupedScorers_count db hnp hnt e he
    obtain ⟨rows, -, hne, hlen, -⟩ := groupedScorers_rows db e he
    obtain ⟨r0, hr0, hE⟩ := mem_groupedScorers db e he
    obtain ⟨-, hp, hpid, hpd, ht, htid, htd, -, -⟩ := (mem_scoringRows db r0).mp hr0
    have hid : e.PlayerID = r0.player.ID := by rw [hE]; exact hpid.symm
    refine ⟨r0.player, hp, r0.team, ht, hpd, htd, htid, ?_, ?_⟩
    · rw [← hid, ← hcount, hlen]
      have : 0 < rows.length := List.length_pos.mpr hne
      omega
    · have hc2 : e.GoalCount = specGoalCount db r0.player.ID := by rw [hcount, hid]
      rw [hE] at hc2 ⊢
      simp only [specScorerEntry, TopScorerResult.mk.injEq]
      exact ⟨hpid.symm, trivial, trivial, trivial, hc2⟩
  · rintro ⟨p, hp, t, ht, hpd, htd, htid, hpos, rfl⟩
    have hex : ∃ g ∈ db.Goals, specCountedGoal p.ID g = true := by
      unfold specGoalCount at hpos
      have hlen : 0 < (db.Goals.filter (specCountedGoal p.ID)).length := by omega
      obtain ⟨g, hg⟩ := List.exists_mem_of_length_pos hlen
      rw [List.mem_filter] at hg
      exact ⟨g, hg.1, hg.2⟩
    obtain ⟨g, hg, hgc⟩ := hex
    simp only [specCountedGoal, Bool.and_eq_true, decide_eq_true_eq, Bool.not_eq_true',
      Option.isNone_iff_eq_none] at hgc
    obtain ⟨⟨hgp, hgd⟩, hown⟩ := hgc
    have hrow : (⟨g, p, t⟩ : JoinedRow) ∈ scoringRows db :=
      (mem_scoringRows db ⟨g, p, t⟩).mpr ⟨hg, hp, hgp.symm, hpd, ht, htid, htd, hgd, hown⟩
    have hmem := groupedScorers_of_row db ⟨g, p, t⟩ hrow
    have hcount := groupedScorers_count db hnp hnt _ hmem
    have heq : specScorerEntry db p t =
        ({ PlayerID := g.PlayerID, PlayerName := p.Name, TeamID := p.TeamID, TeamName := t.Name,
           GoalCount := (((scoringRows db).filter fun r =>
             decide (r.key = (⟨g, p, t⟩ : JoinedRow).key)).length : Int) } : TopScorerResult) := by
      simp only [specScorerEntry, TopScorerResult.mk.injEq]
      refine ⟨hgp.symm, trivial, trivial, trivial, ?_⟩
      rw [← hgp]
      exact hcount.symm
    rw [heq]
    exact hmem

theorem take_sorted_bounds (l : List TopScorerResult) (n : Nat)
    (hs : l.Pairwise goalCountDesc) (e : TopScorerResult) (he : e ∈ l) (hne : e ∉ l.take n) :
    ∀ e2 ∈ l.take n, e.GoalCount ≤ e2.GoalCount := by
  intro e2 he2
  have hsplit : l.take n ++ l.drop n = l := List.take_append_drop n l
  have hd : e ∈ l.drop n := by
    rw [← hsplit, List.mem_append] at he
    rcases he with h | h
    · exact absurd h hne
    · exact h
  rw [← hsplit, List.pairwise_append] at hs
  exact hs.2.2 e2 he2 e hd

/-- C6 (the claim as stated fails): Bima has two goals that are neither
soft-deleted nor own goals, so his per-player count in the claim's words is 2,
yet `GetTopScorers(5)` returns no entry at all, in whatever order the database
ranks: his team is soft-deleted and the query joins only live players of live
teams. -/
theorem GetTopScorers_drops_player_of_deleted_team :
    specGoalCount orphanLeague 11 = 2 ∧
    goalRepositoryImpl.GetTopScorers orphanLeague 5 = .ok [] ∧
    (∀ rank, admissibleOrder rank →
      goalRepositoryImpl.GetTopScorersBy rank orphanLeague 5 = .ok []) := by
  refine ⟨by decide, rfl, ?_⟩
  intro rank hr
  have hg : groupedScorers orphanLeague = [] := by decide
  have hnil : rank [] = [] := List.Perm.eq_nil (hr []).1
  unfold goalRepositoryImpl.GetTopScorersBy
  rw [hg, hnil]
  rfl

/-- C6 (amended): for `limit ≥ 1`, with unique player and team ids, and in
whatever order the database ranks equal counts, `GetTopScorers(limit)`
(repository and use case) returns the first `limit` entries of a ranking,
ordered by goal count descending, that holds exactly one entry for every
player that is not soft-deleted, belongs to a team that is not soft-deleted
and has at least one counted goal, with that player's count: the number of the
player's goals that are not soft-deleted and not flagged as own goal. So the
result has length `min limit (number of ranked players)`, hence ≤ `limit`, its
goal counts are non-increasing, no own goal is counted, and every ranked
player left out has a count no greater than any returned count. -/
theorem GetTopScorers_ranks_eligible_players
    (rank : List TopScorerResult → List TopScorerResult) (db : DB) (limit : Int)
    (hr : admissibleOrder rank) (hl : 1 ≤ limit)
    (hnp : (db.Players.map Player.ID).Nodup) (hnt : (db.Teams.map Team.ID).Nodup) :
    ∃ res ranking : List TopScorerResult,
      goalRepositoryImpl.GetTopScorersBy rank db limit = .ok res ∧
      (∀ uc : reportUseCaseImpl,
        uc.goalRepo.GetTopScorers = goalRepositoryImpl.GetTopScorersBy rank db →
          uc.GetTopScorers limit = .ok res) ∧
      res = ranking.take limit.toNat ∧
      (∀ e, e ∈ ranking ↔
        ∃ p ∈ db.Players, ∃ t ∈ db.Teams, p.DeletedAt = none ∧ t.DeletedAt = none ∧
          t.ID = p.TeamID ∧ 1 ≤ specGoalCount db p.ID ∧ e = specScorerEntry db p t) ∧
      (ranking.map TopScorerResult.PlayerID).Nodup ∧
      ranking.Pairwise (fun a b => b.GoalCount ≤ a.GoalCount) ∧
      res.length = min limit.toNat ranking.length ∧
      (res.length : Int) ≤ limit ∧
      res.Pairwise (fun a b => b.GoalCount ≤ a.GoalCount) ∧
      (∀ e ∈ res, e.GoalCount = specGoalCount db e.PlayerID ∧ 1 ≤ e.GoalCount) ∧
      (∀ e ∈ ranking, e ∉ res → ∀ e2 ∈ res, e.GoalCount ≤ e2.GoalCount) := by
  obtain ⟨hperm, hsorted⟩ := hr (groupedScorers db)
  have hsub : ((rank (groupedScorers db)).take limit.toNat).Sublist (rank (groupedScorers db)) :=
    List.take_sublist _ _
  have hres : goalRepositoryImpl.GetTopScorersBy rank db limit =
      .ok ((rank (groupedScorers db)).take limit.toNat) := by
    unfold goalRepositoryImpl.GetTopScorersBy
    rw [sqlLimit_of_nonneg _ _ (by omega)]
  have hmemiff : ∀ e, e ∈ rank (groupedScorers db) ↔
      ∃ p ∈ db.Players, ∃ t ∈ db.Teams, p.DeletedAt = none ∧ t.DeletedAt = none ∧
        t.ID = p.TeamID ∧ 1 ≤ specGoalCount db p.ID ∧ e = specScorerEntry db p t := by
    intro e
    rw [hperm.mem_iff]
    exact mem_groupedScorers_iff db hnp hnt e
  refine ⟨_, rank (groupedScorers db), hres, ?_, rfl, hmemiff, ?_, hsorted, ?_, ?_,
    hsorted.sublist hsub, ?_, ?_⟩
  · intro uc huc
    unfold reportUseCaseImpl.GetTopScorers
    rw [huc, hres]
  · exact ((hperm.map TopScorerResult.PlayerID).nodup_iff).mpr
      (groupedScorers_players_nodup db hnp hnt)
  · exact List.length_take _ _
  · have h1 := List.length_take_le limit.toNat (rank (groupedScorers db))
    have h2 : (limit.toNat : Int) = limit := Int.toNat_of_nonneg (by omega)
    omega
  · intro e he
    obtain ⟨p, -, t, -, -, -, -, hpos, rfl⟩ := (hmemiff e).mp (hsub.subset he)
    exact ⟨rfl, hpos⟩
  · intro e he hne
    exact take_sorted_bounds _ _ hsorted e he hne

theorem GetTopScorers_ranks_eligible_players_witness :
    admissibleOrder lastStoredFirst ∧ (1 : Int) ≤ 1 ∧
    (sampleLeague.Players.map Player.ID).Nodup ∧ (sampleLeague.Teams.map Team.ID).Nodup ∧
    goalRepositoryImpl.GetTopScorersBy lastStoredFirst sampleLeague 1 =
      .ok [{ PlayerID := 12, PlayerName := "Sari", TeamID := 2, TeamName := "Garuda",
             GoalCount := 3 }] ∧
    goalRepositoryImpl.GetTopScorersBy lastStoredFirst sampleLeague 5 =
      .ok [{ PlayerID := 12, PlayerName := "Sari", TeamID := 2, TeamName := "Garuda",
             GoalCount := 3 },
           { PlayerID := 11, PlayerName := "Bima", TeamID := 1, TeamName := "Harimau",
             GoalCount := 2 }] ∧
    ∃ res ranking : List TopScorerResult,
      goalRepositoryImpl.GetTopScorersBy lastStoredFirst sampleLeague 1 = .ok res ∧
      (∀ uc : reportUseCaseImpl,
        uc.goalRepo.GetTopScorers =
            goalRepositoryImpl.GetTopScorersBy lastStoredFirst sampleLeague →
          uc.GetTopScorers 1 = .ok res) ∧
      res = ranking.take (1 : Int).toNat ∧
      (∀ e, e ∈ ranking ↔
        ∃ p ∈ sampleLeague.Players, ∃ t ∈ sampleLeague.Teams, p.DeletedAt = none ∧
          t.DeletedAt = none ∧ t.ID = p.TeamID ∧ 1 ≤ specGoalCount sampleLeague p.ID ∧
          e = specScorerEntry sampleLeague p t) ∧
      (ranking.map TopScorerResult.PlayerID).Nodup ∧
      ranking.Pairwise (fun a b => b.GoalCount ≤ a.GoalCount) ∧
      res.length = min (1 : Int).toNat ranking.length ∧
      (res.length : Int) ≤ 1 ∧
      res.Pairwise (fun a b => b.GoalCount ≤ a.GoalCount) ∧
      (∀ e ∈ res, e.GoalCount = specGoalCount sampleLeague e.PlayerID ∧ 1 ≤ e.GoalCount) ∧
      (∀ e ∈ ranking, e ∉ res → ∀ e2 ∈ res, e.GoalCount ≤ e2.GoalCount) :=
  ⟨admissibleOrder_lastStoredFirst, by decide, by decide, by decide, by rfl, by rfl,
    GetTopScorers_ranks_eligible_players lastStoredFirst sampleLeague 1
      admissibleOrder_lastStoredFirst (by decide) (by decide) (by decide)⟩

theorem rank_head_of_strict_max (rank : List TopScorerResult → List TopScorerResult)
    (hr : admissibleOrder rank) (l : List TopScorerResult) (e : TopScorerResult) (he : e ∈ l)
    (hmax : ∀ e2 ∈ l, e2 ≠ e → e2.GoalCount < e.GoalCount) :
    (rank l).take 1 = [e] := by
  obtain ⟨hperm, hsorted⟩ := hr l
  have he2 : e ∈ rank l := hperm.mem_iff.mpr he
  cases hrl : rank l with
  | nil => rw [hrl] at he2; cases he2
  | cons h rest =>
      rw [hrl] at he2 hsorted
      have hh : h ∈ l := hperm.mem_iff.mp (by rw [hrl]; exact List.mem_cons_self _ _)
      by_cases heq : h = e
      · subst heq; rfl
      · exfalso
        have hlt := hmax h hh heq
        rcases List.mem_cons.mp he2 with h1 | h1
        · exact heq h1.symm
        · have hle : e.GoalCount ≤ h.GoalCount := (List.pairwise_cons.mp hsorted).1 e h1
          omega

theorem GetTopScorersBy_strict_max (rank : List TopScorerResult → List TopScorerResult)
    (hr : admissibleOrder rank) (db : DB) (e : TopScorerResult) (he : e ∈ groupedScorers db)
    (hmax : ∀ e2 ∈ groupedScorers db, e2 ≠ e → e2.GoalCount < e.GoalCount) :
    goalRepositoryImpl.GetTopScorersBy rank db 1 = .ok [e] := by
  unfold goalRepositoryImpl.GetTopScorersBy
  rw [sqlLimit_of_nonneg _ _ (by decide)]
  exact congrArg Except.ok (rank_head_of_strict_max rank hr _ e he hmax)

theorem GetMatchReport_topScorer_eq (uc : reportUseCaseImpl) (matchID : UUID) (r : MatchReport)
    (ts : List TopScorerResult) (h : uc.GetMatchReport matchID = .ok r)
    (hts : uc.goalRepo.GetTopScorers 1 = .ok ts) : r.TopScorer = ts.head? := by
  obtain ⟨m, ts2, -, -, -, -, -, hts2, hr⟩ := GetMatchReport_ok_inv uc matchID r h
  rw [hts] at hts2
  cases hts2
  subst hr
  cases ts <;> simp

/-- C16 (the claim as stated fails): on the same goal data, in which Bima and
Sari tie with one counted goal each, a database that returns equal counts in
order of first occurrence gives the report of match 7 the top scorer Bima, and
one that returns them in the reverse order gives the report of match 8 the top
scorer Sari; both orders satisfy `ORDER BY goal_count DESC`. -/
theorem GetMatchReport_top_scorer_differs_on_tie :
    admissibleOrder firstStoredFirst ∧ admissibleOrder lastStoredFirst ∧
    ∃ r1 r2,
      (databaseUseCaseBy firstStoredFirst id sampleMethods tiedLeague).GetMatchReport 7 =
        .ok r1 ∧
      (databaseUseCaseBy lastStoredFirst id sampleMethods tiedLeague).GetMatchReport 8 =
        .ok r2 ∧
      r1.TopScorer.map TopScorerResult.PlayerID = some 11 ∧
      r2.TopScorer.map TopScorerResult.PlayerID = some 12 ∧
      r1.TopScorer ≠ r2.TopScorer :=
  ⟨admissibleOrder_firstStoredFirst, admissibleOrder_lastStoredFirst, _, _, rfl, rfl, rfl, rfl,
    by decide⟩

/-- C16 (amended): whenever the match lookup, the four win-count queries and
the top-scorer query succeed, `GetMatchReport(matchID)` returns a report whose
top scorer is the first element of the `GetTopScorers(1)` result when that
result is non-empty and is absent when it is empty. The top scorer does not
depend on which match is reported: every other successful report, of whatever
match, built from the same answer of the query carries the same top scorer;
and on the same goal data, whenever one player alone has the highest goal
count, the reports of any two matches carry that player, in whatever order the
database ranks equal counts. -/
theorem GetMatchReport_top_scorer_from_query (uc : reportUseCaseImpl) (matchID : UUID)
    (m : Match) (ts : List TopScorerResult)
    (hf : uc.matchRepo.FindByIDWithDetails matchID = .ok m)
    (h1 : (uc.matchRepo.GetTeamWinCount m.HomeTeamID true).2 = none)
    (h2 : (uc.matchRepo.GetTeamWinCount m.HomeTeamID false).2 = none)
    (h3 : (uc.matchRepo.GetTeamWinCount m.AwayTeamID false).2 = none)
    (h4 : (uc.matchRepo.GetTeamWinCount m.AwayTeamID true).2 = none)
    (hts : uc.goalRepo.GetTopScorers 1 = .ok ts) :
    ∃ r, uc.GetMatchReport matchID = .ok r ∧
      r.TopScorer = ts.head? ∧
      (ts = [] → r.TopScorer = none) ∧
      (∀ s rest, ts = s :: rest → r.TopScorer = some s) ∧
      (∀ (uc2 : reportUseCaseImpl) (id2 : UUID) (r2 : MatchReport),
        uc2.GetMatchReport id2 = .ok r2 → uc2.goalRepo.GetTopScorers 1 = .ok ts →
          r2.TopScorer = r.TopScorer) ∧
      (∀ (rank1 rank2 : List TopScorerResult → List TopScorerResult)
          (order1 order2 : List Match → List Match) (methods1 methods2 : MatchMethods)
          (db : DB) (e : TopScorerResult) (id1 id2 : UUID) (r1 r2 : MatchReport),
        admissibleOrder rank1 → admissibleOrder rank2 →
        e ∈ groupedScorers db →
        (∀ e2 ∈ groupedScorers db, e2 ≠ e → e2.GoalCount < e.GoalCount) →
        (databaseUseCaseBy rank1 order1 methods1 db).GetMatchReport id1 = .ok r1 →
        (databaseUseCaseBy rank2 order2 methods2 db).GetMatchReport id2 = .ok r2 →
          r1.TopScorer = some e ∧ r2.TopScorer = some e) := by
  have hfirst : firstError (uc.queryErrors m) = none := by
    simp [reportUseCaseImpl.queryErrors, firstError, h1, h2, h3, h4, hts]
  obtain ⟨r, hr⟩ := (GetMatchReport_after_lookup uc matchID m hf).2 hfirst
  have htop := GetMatchReport_topScorer_eq uc matchID r ts hr hts
  refine ⟨r, hr, htop, ?_, ?_, ?_, ?_⟩
  · intro he; rw [htop, he]; rfl
  · intro s rest he; rw [htop, he]; rfl
  · intro uc2 id2 r2 hr2 hts2
    rw [GetMatchReport_topScorer_eq uc2 id2 r2 ts hr2 hts2, htop]
  · intro rank1 rank2 order1 order2 methods1 methods2 db e id1 id2 r1 r2 ha1 ha2 he hmax hr1 hr2
    have hq1 := GetTopScorersBy_strict_max rank1 ha1 db e he hmax
    have hq2 := GetTopScorersBy_strict_max rank2 ha2 db e he hmax
    exact ⟨GetMatchReport_topScorer_eq _ id1 r1 [e] hr1 hq1,
      GetMatchReport_topScorer_eq _ id2 r2 [e] hr2 hq2⟩

theorem GetMatchReport_top_scorer_from_query_witness :
    sampleUseCase.matchRepo.FindByIDWithDetails 7 = .ok (sampleMatch 7) ∧
    sampleUseCase.goalRepo.GetTopScorers 1 = .ok [sampleScorer] ∧
    sampleUseCase.GetMatchReport 7 = .ok sampleReport ∧
    sampleReport.TopScorer = some sampleScorer ∧
    (((databaseUseCaseBy firstStoredFirst id sampleMethods sampleLeague).GetMatchReport 7).toOption.map
      fun r => r.TopScorer.map TopScorerResult.PlayerID) = some (some 12) ∧
    (((databaseUseCaseBy lastStoredFirst id sampleMethods sampleLeague).GetMatchReport 7).toOption.map
      fun r => r.TopScorer.map TopScorerResult.PlayerID) = some (some 12) ∧
    ∃ r, sampleUseCase.GetMatchReport 7 = .ok r ∧
      r.TopScorer = [sampleScorer].head? ∧
      ([sampleScorer] = [] → r.TopScorer = none) ∧
      (∀ s rest, [sampleScorer] = s :: rest → r.TopScorer = some s) ∧
      (∀ (uc2 : reportUseCaseImpl) (id2 : UUID) (r2 : MatchReport),
        uc2.GetMatchReport id2 = .ok r2 → uc2.goalRepo.GetTopScorers 1 = .ok [sampleScorer] →
          r2.TopScorer = r.TopScorer) ∧
      (∀ (rank1 rank2 : List TopScorerResult → List TopScorerResult)
          (order1 order2 : List Match → List Match) (methods1 methods2 : MatchMethods)
          (db : DB) (e : TopScorerResult) (id1 id2 : UUID) (r1 r2 : MatchReport),
        admissibleOrder rank1 → admissibleOrder rank2 →
        e ∈ groupedScorers db →
        (∀ e2 ∈ groupedScorers db, e2 ≠ e → e2.GoalCount < e.GoalCount) →
        (databaseUseCaseBy rank1 order1 methods1 db).GetMatchReport id1 = .ok r1 →
        (databaseUseCaseBy rank2 order2 methods2 db).GetMatchReport id2 = .ok r2 →
          r1.TopScorer = some e ∧ r2.TopScorer = some e) :=
  ⟨rfl, rfl, rfl, rfl, rfl, rfl,
    GetMatchReport_top_scorer_from_query sampleUseCase 7 (sampleMatch 7) [sampleScorer]
      rfl rfl rfl rfl rfl rfl⟩

end AyoFootball
